import Mathlib

/-!
Verification of the IR interpreter in `src/interpreter.c` (expression evaluator
`eval`, body executor `eval_body`, and the entry adapters) against its
natural-language specification.

The embedding is shallow: C heap objects become an inductive `Value` (with a
`vnull` constructor standing for the C `NULL` pointer), mutable datatypes and
frame-local vectors live in an explicit global state `GState`, and every
fallible computation returns a `Res` outcome: normal return, a thrown Julia
value, a crash (undefined behaviour such as a NULL dereference), or fuel
exhaustion.  External collaborators (generic dispatch, type instantiation,
top-level evaluation, ...) are an oracle structure `Collab` that theorems
quantify over; binding-table primitives, which live elsewhere in the
repository, are modelled from the spec.
-/

namespace JuliaInterp

/-- Module handles.  The core only passes them around and compares them. -/
abbrev Mod := Nat

/-- Interned symbols.  The well-known expression heads of the IR are a closed
set compared by pointer equality in the C source, modelled here as dedicated
constructors; all other symbols (variable and type names) use `name`.
`ret` stands for the C `return_sym` and `assign` for `=`. -/
inductive Sym where
  | call | invoke | new | static_parameter | inert | copyast
  | static_typeof | the_exception | method | const | global
  | abstracttype | bitstype | compositetype | module | thunk
  | error | incomplete | boundscheck | inbounds | fastmath
  | simdloop | meta | type_goto | ret | assign | goto_ifnot
  | line | enter | leave
  | name (s : String)
deriving DecidableEq, Repr

/-- `jl_symbol_name`: the print name of a symbol. -/
def symName : Sym → String
  | .call => "call" | .invoke => "invoke" | .new => "new"
  | .static_parameter => "static_parameter" | .inert => "inert"
  | .copyast => "copyast" | .static_typeof => "static_typeof"
  | .the_exception => "the_exception" | .method => "method"
  | .const => "const" | .global => "global"
  | .abstracttype => "abstract_type" | .bitstype => "bits_type"
  | .compositetype => "composite_type" | .module => "module"
  | .thunk => "thunk" | .error => "error" | .incomplete => "incomplete"
  | .boundscheck => "boundscheck" | .inbounds => "inbounds"
  | .fastmath => "fastmath" | .simdloop => "simdloop" | .meta => "meta"
  | .type_goto => "type_goto" | .ret => "return" | .assign => "="
  | .goto_ifnot => "goto_ifnot" | .line => "line" | .enter => "enter"
  | .leave => "leave" | .name s => s

/-- Dynamic values (`jl_value_t*`).  `vnull` is the C `NULL` pointer, used for
absent binding values and uninitialized locals.  `datatype` and `lamref` are
references into the global state's heaps (datatypes are mutated in place by
the type-definition forms).  The exception objects produced by `jl_error`,
`jl_errorf`, `jl_type_error_rt` and `jl_undefined_var_error` are values too,
since `jl_throw` throws arbitrary values. -/
inductive Value where
  | vnull
  | nothing
  | btrue
  | bfalse
  | long (n : Int)
  | strv (s : String)
  | symv (s : Sym)
  | ssav (id : Int)
  | slotv (n : Int)
  | globalref (m : Mod) (s : Sym)
  | quotenode (v : Value)
  | gotonode (label : Int)
  | linenode (line : Int)
  | newvarnode (v : Value)
  | svec (vs : List Value)
  | arr (vs : List Value)
  | expr (head : Sym) (args : List Value)
  | datatype (r : Nat)
  | lamref (l : Nat)
  | tuplev (vs : List Value)
  | typevar (id : Nat)
  | structv (r : Nat) (fields : List Value)
  | exc_error (msg : String)
  | exc_type (fname : String) (context : String) (expected : Value) (got : Value)
  | exc_undefvar (s : Sym)
  | other (tag : Nat)


/-- `jl_lambda_info_t`: the fields the interpreter reads.  `defmodule` is
`lam->def->module` when `lam->def` is non-NULL, and `none` otherwise. -/
structure LambdaInfo where
  code : List Value
  slotflags : List Nat
  slotnames : List Sym
  ssavaluetypes : Value
  nargs : Nat
  isva : Bool
  sparam_vals : List Value
  defmodule : Option Mod
  inInf : Bool


/-- `jl_linfo_nslots`: the length of `slotflags`. -/
def linfo_nslots (li : LambdaInfo) : Int := (li.slotflags.length : Int)

/-- `jl_linfo_nssavalues`: `ssavaluetypes` is an unboxed count or an array
whose length counts.  On any other value `jl_array_len` reads garbage, which
we model as `none` (a crash at every use site). -/
def linfo_nssavalues (li : LambdaInfo) : Option Int :=
  match li.ssavaluetypes with
  | .long n => some n
  | .arr vs => some (vs.length : Int)
  | _ => none

/-- `interpreter_state`: the per-invocation frame.  `locals` is a reference
into the global state's locals heap (the C code shares the array by pointer
between `eval_body` and `eval`). -/
structure Frame where
  lam : Option LambdaInfo
  locals : Option Nat
  sparam_vals : Option (List Value)


/-- Modelled from the spec: a binding is "a named, writable cell in a module's
symbol table; may be marked constant" (glossary).  `value = vnull` is an
absent value (`b->value == NULL`). -/
structure Binding where
  value : Value
  constp : Bool


/-- `jl_datatype_t`: the fields the interpreter and `equiv_type` read or
write.  `name` is `dt->name->name` and `names` is `dt->name->names`; `super`
and `inst` are `vnull` until installed. -/
structure Datatype where
  name : Sym
  names : Value
  parameters : Value
  types : Value
  super : Value
  abstract : Bool
  mutabl : Bool
  size : Int
  ninitialized : Int
  inst : Value


/-- Observable collaborator calls, recorded in the state's trace in the order
they happen. -/
inductive Event where
  | apply_generic (argv : List Value)
  | call_method (l : Nat) (argv : List Value)
  | checked_assignment (m : Mod) (s : Sym) (v : Value)
  | declare_const (m : Mod) (s : Sym)
  | new_abstracttype (n : Sym)
  | new_bitstype (n : Sym) (nb : Int)
  | new_datatype (n : Sym)
  | reinstantiate (r : Nat)
  | reset_instantiate (r : Nat)
  | compute_field_offsets (r : Nat)
  | toplevel (e : Value)
  | method_def (atypes : Value) (meth : Value) (extra : Value)
  | generic_function_def (s : Sym)
  | eval_module (e : Value)
  | copy_ast (v : Value)
  | oracle (tag : Nat)


/-- The process-wide state: the datatype heap, the frame-locals heap, the
binding tables, the two current-module cells, the `inside_typedef` flag, the
in-transit exception, the top-level line counter, the handler-stack depth and
the event trace. -/
structure GState where
  heap : List Datatype
  localsHeap : List (List Value)
  bindings : Mod → Sym → Option Binding
  current_module : Mod
  task_current_module : Mod
  inside_typedef : Bool
  exc_in_transit : Value
  lineno : Int
  handlers : Nat
  trace : List Event


/-- Outcome of a computation: normal return, a thrown value (`jl_throw` and
the error helpers), a crash (undefined behaviour: NULL dereference,
out-of-bounds unchecked access, failed `assert`), or exhausted fuel. -/
inductive Res (α : Type) where
  | ok (a : α) (g : GState)
  | thrown (exc : Value) (g : GState)
  | crash
  | oom


/-- State-passing computations. -/
abbrev EvalM (α : Type) := GState → Res α

/-- Sequencing: propagate throws, crashes and fuel exhaustion. -/
def resBind {α β : Type} (r : Res α) (f : α → EvalM β) : Res β :=
  match r with
  | .ok a g => f a g
  | .thrown e g => .thrown e g
  | .crash => .crash
  | .oom => .oom

@[simp] theorem resBind_ok {α β : Type} (a : α) (g : GState) (f : α → EvalM β) :
    resBind (.ok a g) f = f a g := rfl

@[simp] theorem resBind_thrown {α β : Type} (e : Value) (g : GState) (f : α → EvalM β) :
    resBind (.thrown e g) f = .thrown e g := rfl

@[simp] theorem resBind_crash {α β : Type} (f : α → EvalM β) :
    resBind (.crash : Res α) f = .crash := rfl

@[simp] theorem resBind_oom {α β : Type} (f : α → EvalM β) :
    resBind (.oom : Res α) f = .oom := rfl

/-- `jl_throw` and the error helpers: throwing sets the in-transit exception. -/
def throwE {α : Type} (e : Value) : EvalM α :=
  fun g => .thrown e { g with exc_in_transit := e }

/-- `jl_error` / `jl_errorf`: throw an `ErrorException` with a message. -/
def errorE {α : Type} (msg : String) : EvalM α := throwE (.exc_error msg)

/-- A crash: NULL dereference or other undefined behaviour. -/
def crashE {α : Type} : EvalM α := fun _ => .crash

/-- Unchecked C array access (`jl_exprarg`, direct `args[i]`): out of bounds
reads are undefined behaviour. -/
def getArg (args : List Value) (i : Nat) : EvalM Value :=
  fun g => match args.get? i with
    | some v => .ok v g
    | none => .crash

/-- `jl_unbox_long` reads the data words of the value; on a non-`long` the
result is garbage, modelled as a crash. -/
def unboxLong (v : Value) : EvalM Int :=
  fun g => match v with
    | .long n => .ok n g
    | _ => .crash

/-- Record an observable collaborator call. -/
def addEvent (ev : Event) (g : GState) : GState :=
  { g with trace := g.trace ++ [ev] }

/-- Conversion of a signed index to `size_t` (the loop counter of `eval_body`
is a `size_t`, so `i = label - 1` wraps modulo `2^64`). -/
def wrapIdx (x : Int) : Nat := (x % (2 : Int) ^ 64).toNat

mutual

/-- Modelled from the spec: `jl_egal` structural equality on values ("equal
type-name symbol; structurally equal field-type sequence; ... structurally
equal supertype" in §4.1.3).  It also stands for the C pointer comparisons
against interned values (`jl_false`, `jl_emptysvec`, `jl_builtin_type`):
interned values are pointer-equal exactly when structurally equal. -/
def vbeq : Value → Value → Bool
  | .vnull, .vnull => true
  | .nothing, .nothing => true
  | .btrue, .btrue => true
  | .bfalse, .bfalse => true
  | .long a, .long b => a == b
  | .strv a, .strv b => a == b
  | .symv a, .symv b => a == b
  | .ssav a, .ssav b => a == b
  | .slotv a, .slotv b => a == b
  | .globalref m a, .globalref m' b => m == m' && a == b
  | .quotenode a, .quotenode b => vbeq a b
  | .gotonode a, .gotonode b => a == b
  | .linenode a, .linenode b => a == b
  | .newvarnode a, .newvarnode b => vbeq a b
  | .svec as, .svec bs => vbeqList as bs
  | .arr as, .arr bs => vbeqList as bs
  | .expr h as, .expr h' bs => h == h' && vbeqList as bs
  | .datatype a, .datatype b => a == b
  | .lamref a, .lamref b => a == b
  | .tuplev as, .tuplev bs => vbeqList as bs
  | .typevar a, .typevar b => a == b
  | .structv r as, .structv r' bs => r == r' && vbeqList as bs
  | .exc_error a, .exc_error b => a == b
  | .exc_type a c e v, .exc_type a' c' e' v' =>
      a == a' && c == c' && vbeq e e' && vbeq v v'
  | .exc_undefvar a, .exc_undefvar b => a == b
  | .other a, .other b => a == b
  | _, _ => false

/-- Elementwise `vbeq` on simple-vector contents. -/
def vbeqList : List Value → List Value → Bool
  | [], [] => true
  | a :: as, b :: bs => vbeq a b && vbeqList as bs
  | _, _ => false

end

/-- `jl_is_datatype`. -/
def isDatatypeV : Value → Bool
  | .datatype _ => true
  | _ => false

/-- `jl_is_typevar`. -/
def isTypevarV : Value → Bool
  | .typevar _ => true
  | _ => false

/-- `jl_is_symbol`. -/
def isSymbolV : Value → Bool
  | .symv _ => true
  | _ => false

/-- Modelled from the spec: look up a module's binding table (§6
`get_binding_wr` and `get_global` read the same cells). -/
def lookupBinding (g : GState) (m : Mod) (s : Sym) : Option Binding :=
  g.bindings m s

/-- The binding's stored value; `vnull` when the binding is absent or empty. -/
def bindingValue (g : GState) (m : Mod) (s : Sym) : Value :=
  match lookupBinding g m s with
  | some b => b.value
  | none => .vnull

/-- Update-or-create a binding cell.  A C `jl_binding_t*` write always lands
in the module's table, so the cell is created when absent. -/
def overBinding (m : Mod) (s : Sym) (f : Binding → Binding) (g : GState) : GState :=
  let old : Binding := match g.bindings m s with
    | some b => b
    | none => ⟨.vnull, false⟩
  let nb := f old
  { g with bindings := fun m' s' => if m' = m ∧ s' = s then some nb else g.bindings m' s' }

/-- Write `b->value = v` through the binding pointer. -/
def setBindingValue (m : Mod) (s : Sym) (v : Value) (g : GState) : GState :=
  overBinding m s (fun b => { b with value := v }) g

/-- Modelled from the spec: `get_binding_wr(module, symbol)` ensures a
writable binding exists (§6); a fresh binding starts empty and non-constant. -/
def ensureBinding (m : Mod) (s : Sym) (g : GState) : GState :=
  overBinding m s id g

/-- Modelled from the spec: `get_global(module, symbol)` looks the symbol up
in that module's binding table (§4.1 rule 3); NULL when undefined. -/
def jl_get_global (g : GState) (m : Mod) (s : Sym) : Value := bindingValue g m s

/-- Modelled from the spec: `declare_constant(binding)` marks the binding
constant (§4.1 `const` row). -/
def declareConstant (m : Mod) (s : Sym) (g : GState) : GState :=
  overBinding m s (fun b => { b with constp := true }) (addEvent (.declare_const m s) g)

/-- Modelled from the spec: `checked_assignment(binding, value)` performs the
(global) assignment (§4.2 assignment rules, §6). -/
def checkedAssignment (m : Mod) (s : Sym) (v : Value) (g : GState) : GState :=
  setBindingValue m s v (addEvent (.checked_assignment m s v) g)

/-- Read a datatype from the heap (`NULL`-dereference crash when dangling). -/
def getDt (g : GState) (r : Nat) : Option Datatype := g.heap.get? r

/-- Mutate a heap datatype in place. -/
def updateDt (r : Nat) (f : Datatype → Datatype) (g : GState) : GState :=
  match g.heap.get? r with
  | some dt => { g with heap := g.heap.set r (f dt) }
  | none => g

/-- `jl_is_abstracttype(v)`: a datatype whose `abstract` flag is set. -/
def isAbstracttype (g : GState) (v : Value) : Bool :=
  match v with
  | .datatype r => match getDt g r with
    | some dt => dt.abstract
    | none => false
  | _ => false

/-- The external collaborators consumed through well-defined interfaces
(spec §6).  Theorems quantify over an arbitrary `Collab`; the distinguished
values model the interned globals the C code compares against. -/
structure Collab where
  apply_generic : List Value → EvalM Value
  call_method_internal : Nat → List Value → EvalM Value
  lamInInference : Nat → Bool
  is_structtype : Value → Bool
  is_type : Value → Bool
  subtype : Value → Value → Bool
  is_tuple_type : Value → Bool
  any_type : Value
  bool_type : Value
  type_type : Value
  vararg_type : Value
  builtin_type : Value
  reinstantiate_inner_types : Nat → EvalM Unit
  reset_instantiate_inner_types : Nat → GState → GState
  compute_field_offsets : Nat → GState → GState
  is_datatype_make_singleton : Nat → GState → Bool
  newstruct : Nat → Value
  copy_ast : Value → EvalM Value
  toplevel_eval : Value → EvalM Value
  is_toplevel_only_expr : Value → Bool
  eval_module_expr : Value → EvalM Value
  generic_function_def : Sym → Mod → EvalM Value
  method_def : Value → Value → Value → EvalM Unit

/-- `jl_apply_generic(argv, nargs)`: record the call, then dispatch. -/
def callApplyGeneric (c : Collab) (argv : List Value) : EvalM Value :=
  fun g => c.apply_generic argv (addEvent (.apply_generic argv) g)

/-- `jl_call_method_internal(meth, argv, nargs)`. -/
def callMethodInternal (c : Collab) (l : Nat) (argv : List Value) : EvalM Value :=
  fun g => c.call_method_internal l argv (addEvent (.call_method l argv) g)

/-- `jl_reinstantiate_inner_types(dt)` (may fail; void on success). -/
def callReinstantiate (c : Collab) (r : Nat) : EvalM Unit :=
  fun g => c.reinstantiate_inner_types r (addEvent (.reinstantiate r) g)

/-- `jl_reset_instantiate_inner_types(dt)` (void; used on the rollback path). -/
def callResetInstantiate (c : Collab) (r : Nat) (g : GState) : GState :=
  c.reset_instantiate_inner_types r (addEvent (.reset_instantiate r) g)

/-- `jl_compute_field_offsets(dt)`. -/
def callComputeFieldOffsets (c : Collab) (r : Nat) (g : GState) : GState :=
  c.compute_field_offsets r (addEvent (.compute_field_offsets r) g)

/-- `jl_toplevel_eval(e)`. -/
def callToplevelEval (c : Collab) (e : Value) : EvalM Value :=
  fun g => c.toplevel_eval e (addEvent (.toplevel e) g)

/-- `jl_copy_ast(v)`. -/
def callCopyAst (c : Collab) (v : Value) : EvalM Value :=
  fun g => c.copy_ast v (addEvent (.copy_ast v) g)

/-- `jl_eval_module_expr(ex)`. -/
def callEvalModule (c : Collab) (e : Value) : EvalM Value :=
  fun g => c.eval_module_expr e (addEvent (.eval_module e) g)

/-- `jl_generic_function_def(fname, bp, bp_owner, b)`. -/
def callGenericFunctionDef (c : Collab) (s : Sym) (m : Mod) : EvalM Value :=
  fun g => c.generic_function_def s m (addEvent (.generic_function_def s) g)

/-- `jl_method_def(atypes, meth, extra)`. -/
def callMethodDef (c : Collab) (atypes meth extra : Value) : EvalM Unit :=
  fun g => c.method_def atypes meth extra (addEvent (.method_def atypes meth extra) g)

/-- `jl_checked_assignment(b, v)` with its trace event. -/
def callCheckedAssignment (m : Mod) (s : Sym) (v : Value) : EvalM Unit :=
  fun g => .ok () (checkedAssignment m s v g)

/-- `equiv_type(dta, dtb)`: the heuristic for allowing "redefining" a type to
something identical.  `dta` is always a freshly built datatype; `dtb` is the
binding's previous value, of arbitrary kind — the `jl_typeof` comparison
fails unless it is a datatype too.  Structural `jl_egal` is `vbeq`. -/
def equiv_type (g : GState) (dta : Nat) (vb : Value) : Bool :=
  match vb with
  | .datatype rb =>
    match getDt g dta, getDt g rb with
    | some a, some b =>
      vbeq a.parameters (.svec []) &&
      a.name == b.name &&
      vbeq a.types b.types &&
      a.abstract == b.abstract &&
      a.mutabl == b.mutabl &&
      a.size == b.size &&
      a.ninitialized == b.ninitialized &&
      vbeq a.super b.super &&
      vbeq a.names b.names &&
      vbeq a.parameters b.parameters
    | _, _ => false
  | _ => false

/-- `check_can_assign_type(b)`: a constant binding holding a non-NULL
non-datatype value refuses redefinition. -/
def check_can_assign_type (m : Mod) (s : Sym) : EvalM Unit :=
  fun g => match lookupBinding g m s with
    | some b =>
      if b.constp && !(vbeq b.value .vnull) && !(isDatatypeV b.value) then
        throwE (.exc_error ("invalid redefinition of constant " ++ symName s)) g
      else .ok () g
    | none => .crash

/-- `jl_set_datatype_super(tt, super)`: validate and install the declared
supertype.  The subtype and tuple-type tests are collaborator calls. -/
def jl_set_datatype_super (c : Collab) (tt : Nat) (super : Value) : EvalM Unit :=
  fun g => match getDt g tt with
    | none => .crash
    | some dta =>
      let bad : Bool :=
        !(isDatatypeV super) || !(isAbstracttype g super) ||
        (match super with
         | .datatype rb => match getDt g rb with
           | some dtb => dta.name == dtb.name
           | none => false
         | _ => false) ||
        c.subtype super c.vararg_type ||
        c.is_tuple_type super ||
        c.subtype super c.type_type ||
        vbeq super c.builtin_type
      if bad then
        throwE (.exc_error ("invalid subtyping in definition of " ++ symName dta.name)) g
      else .ok () (updateDt tt (fun dt => { dt with super := super }) g)

/-- Modelled from the spec: `new_abstracttype(name, NULL, parameters)` (§6)
returns a fresh abstract datatype with the given name and parameters and no
supertype yet.  The new object is pushed on the heap; its reference is
returned. -/
def newAbstracttype (nm : Sym) (para : Value) : EvalM Nat :=
  fun g =>
    let dt : Datatype :=
      { name := nm, names := .svec [], parameters := para, types := .svec [],
        super := .vnull, abstract := true, mutabl := false, size := 0,
        ninitialized := 0, inst := .vnull }
    .ok g.heap.length { (addEvent (.new_abstracttype nm) g) with heap := g.heap ++ [dt] }

/-- Modelled from the spec: `new_bitstype(name, NULL, parameters, nb)` (§6)
returns a fresh primitive datatype of `nb` bits (`nb/8` bytes of data). -/
def newBitstype (nm : Sym) (para : Value) (nb : Int) : EvalM Nat :=
  fun g =>
    let dt : Datatype :=
      { name := nm, names := .svec [], parameters := para, types := .svec [],
        super := .vnull, abstract := false, mutabl := false, size := nb / 8,
        ninitialized := 0, inst := .vnull }
    .ok g.heap.length { (addEvent (.new_bitstype nm nb) g) with heap := g.heap ++ [dt] }

/-- Modelled from the spec: `new_datatype(name, NULL, parameters, fnames,
NULL, 0, mutabl, ninitialized)` (§6) returns a fresh concrete datatype with
the given field names; its field types (`dt->types`) are installed later
inside the rollback scope, and its size by `compute_field_offsets`. -/
def newDatatype (nm : Sym) (para : Value) (fnames : Value) (mutabl : Bool)
    (ninitialized : Int) : EvalM Nat :=
  fun g =>
    let dt : Datatype :=
      { name := nm, names := fnames, parameters := para, types := .vnull,
        super := .vnull, abstract := false, mutabl := mutabl, size := 0,
        ninitialized := ninitialized, inst := .vnull }
    .ok g.heap.length { (addEvent (.new_datatype nm) g) with heap := g.heap ++ [dt] }

/-- Modelled from the spec: `jl_f_tuple` builds the varargs tuple
(§4.3 "the final formal slot receives a tuple of the trailing actuals"). -/
def fTuple (vs : List Value) : Value := .tuplev vs

/-- The left-to-right argument loop shared by `do_call` and `do_invoke`:
`for(i=0; i < nargs; i++) argv[i] = eval(args[i], s);`.  `ev` is the
expression evaluator with the frame already applied. -/
def evalArgs (ev : Value → EvalM Value) : List Value → EvalM (List Value)
  | [] => fun g => .ok [] g
  | a :: rest => fun g =>
      resBind (ev a g) fun v g' =>
      resBind (evalArgs ev rest g') fun vs g'' =>
      .ok (v :: vs) g''

/-- `do_call`: evaluate every argument left-to-right into a rooted vector,
then invoke generic dispatch on the vector. -/
def do_call (c : Collab) (ev : Value → EvalM Value) (args : List Value) : EvalM Value :=
  fun g => resBind (evalArgs ev args g) fun argv g' => callApplyGeneric c argv g'

/-- `do_invoke`: `args[0]` is a pre-resolved lambda info; evaluate the rest
left-to-right and call the method directly, bypassing dispatch. -/
def do_invoke (c : Collab) (ev : Value → EvalM Value) (args : List Value) : EvalM Value :=
  fun g =>
    match args with
    | [] => .crash
    | meth :: rest =>
      resBind (evalArgs ev rest g) fun argv g' =>
        match meth with
        | .lamref l =>
          if c.lamInInference l then .crash
          else callMethodInternal c l argv g'
        | _ => .crash

/-- The field-initialisation loop of the `new` form:
`for(i=1; i < nargs; i++) jl_set_nth_field(v, i-1, eval(args[i], s));`.
An out-of-range store is an unchecked write. -/
def evalNewFields (ev : Value → EvalM Value) : List Value → Nat → List Value → EvalM (List Value)
  | [], _, fields => fun g => .ok fields g
  | a :: rest, i, fields => fun g =>
      resBind (ev a g) fun v g' =>
        if i < fields.length then
          evalNewFields ev rest (i + 1) (fields.set i v) g'
        else .crash

/-- `new`: evaluate the type (asserted to be a concrete struct type),
allocate an uninitialized instance, then fill the leading fields in order. -/
def eval_new (c : Collab) (ev : Value → EvalM Value) (args : List Value) : EvalM Value :=
  fun g =>
    resBind (getArg args 0 g) fun tyE g0 =>
    resBind (ev tyE g0) fun thetype g1 =>
      if !(c.is_structtype thetype) then .crash
      else match thetype with
        | .datatype r =>
          match getDt g1 r with
          | some dt =>
            match dt.types with
            | .svec ts =>
              resBind (evalNewFields ev args.tail 0 (List.replicate ts.length Value.vnull) g1)
                fun fields g2 => .ok (.structv r fields) g2
            | _ => .crash
          | none => .crash
        | _ => .crash

/-- The body-installation tail of the `method` form: evaluate the signature
and the lambda, then call the method installer. -/
def eval_method_rest (c : Collab) (ev : Value → EvalM Value) (args : List Value) :
    EvalM Value :=
  fun g1 =>
    resBind (getArg args 1 g1) fun a1 g2 =>
    resBind (ev a1 g2) fun atypes g3 =>
    resBind (getArg args 2 g3) fun a2 g4 =>
    resBind (ev a2 g4) fun meth g5 =>
    resBind (getArg args 3 g5) fun a3 g6 =>
    resBind (callMethodDef c atypes meth a3 g6) fun _ g7 =>
    .ok Value.nothing g7

/-- The `method` form (§4.1.1): look up / create the generic function when
the name is a symbol, then (unless it was a bare 1-argument declaration)
evaluate the signature and the lambda and install the method
(`eval_method_rest`). -/
def eval_method (c : Collab) (ev : Value → EvalM Value) (args : List Value)
    (modu : Mod) : EvalM Value :=
  fun g =>
    resBind (getArg args 0 g) fun fname g0 =>
      if args.length == 1 && !(isSymbolV fname) then .crash
      else
        match fname with
        | .symv nm =>
          let g1 := ensureBinding modu nm g0
          resBind (callGenericFunctionDef c nm modu g1) fun gf g2 =>
            if args.length == 1 then .ok gf g2
            else eval_method_rest c ev args g2
        | _ => eval_method_rest c ev args g0

/-- The common `JL_TRY { inside_typedef = 1; scope } JL_CATCH {
reset_instantiate_inner_types(dt); b->value = temp; jl_rethrow(); }` pattern
of the three type-definition forms. -/
def typedefTry (c : Collab) (dt : Nat) (m : Mod) (s : Sym) (temp : Value)
    (scope : EvalM Unit) : EvalM Unit :=
  fun g =>
    match scope { g with inside_typedef := true } with
    | .ok _ g' => .ok () g'
    | .thrown _ g' =>
        let g'' := setBindingValue m s temp (callResetInstantiate c dt g')
        .thrown g''.exc_in_transit g''
    | .crash => .crash
    | .oom => .oom

/-- The rollback-scope body shared by `abstract_type` and `bits_type`:
evaluate the supertype expression, install it, reinstantiate inner types. -/
def superScope (c : Collab) (ev : Value → EvalM Value) (superE : Value)
    (dt : Nat) : EvalM Unit :=
  fun g =>
    resBind (ev superE g) fun sup g1 =>
    resBind (jl_set_datatype_super c dt sup g1) fun _ g2 =>
    callReinstantiate c dt g2

/-- The per-field check of the composite rollback scope: each declared field
type must be a type or a type variable. -/
def checkFieldTypes (c : Collab) (nm : Sym) : List Value → EvalM Unit
  | [] => fun g => .ok () g
  | t :: ts => fun g =>
      if !(c.is_type t) && !(isTypevarV t) then
        throwE (.exc_type (symName nm) "type definition" c.type_type t) g
      else checkFieldTypes c nm ts g

/-- The rollback-scope body of `composite_type`: supertype, then field types
(installed into `dt->types` and checked), then reinstantiation. -/
def compositeScope (c : Collab) (ev : Value → EvalM Value) (superE ftypesE : Value)
    (dt : Nat) : EvalM Unit :=
  fun g =>
    resBind (ev superE g) fun sup g1 =>
    resBind (jl_set_datatype_super c dt sup g1) fun _ g2 =>
    resBind (ev ftypesE g2) fun ftypes g3 =>
    let g4 := updateDt dt (fun d => { d with types := ftypes }) g3
    match getDt g4 dt with
    | none => .crash
    | some d =>
      match ftypes with
      | .svec ts =>
        resBind (checkFieldTypes c d.name ts g4) fun _ g5 =>
        callReinstantiate c dt g5
      | _ => .crash

/-- The common success tail of the three type-definition forms:
`b->value = temp; if (temp==NULL || !equiv_type(dt, temp))
jl_checked_assignment(b, dt);` — absorb an equivalent redefinition, bind a
genuinely new type. -/
def typedefFinish (m : Mod) (s : Sym) (temp : Value) (dt : Nat) : EvalM Unit :=
  fun g =>
    let g1 := setBindingValue m s temp g
    if vbeq temp .vnull || !(equiv_type g1 dt temp) then
      .ok () (checkedAssignment m s (.datatype dt) g1)
    else .ok () g1

/-- The `abstract_type` form. -/
def eval_abstracttype (c : Collab) (ev : Value → EvalM Value) (args : List Value)
    (modu : Mod) : EvalM Value :=
  fun g =>
    if g.inside_typedef then
      errorE "cannot eval a new abstract type definition while defining another type" g
    else
      resBind (getArg args 0 g) fun name g0 =>
      resBind (getArg args 1 g0) fun paraE g1 =>
      resBind (ev paraE g1) fun para g2 =>
        match para, name with
        | .svec _, .symv nm =>
          resBind (newAbstracttype nm para g2) fun dt g3 =>
          let g4 := ensureBinding modu nm g3
          let temp := bindingValue g4 modu nm
          resBind (check_can_assign_type modu nm g4) fun _ g5 =>
          let g6 := setBindingValue modu nm (.datatype dt) g5
          resBind (getArg args 2 g6) fun superE g7 =>
          resBind (typedefTry c dt modu nm temp (superScope c ev superE dt) g7) fun _ g8 =>
          resBind (typedefFinish modu nm temp dt g8) fun _ g9 =>
          .ok Value.nothing g9
        | _, _ => .crash

/-- The tail of the `bits_type` form after the fresh datatype is built:
binding snapshot, temporary assignment, rollback scope and success tail. -/
def eval_bitstype_rest (c : Collab) (ev : Value → EvalM Value) (args : List Value)
    (modu : Mod) (nm : Sym) (dt : Nat) : EvalM Value :=
  fun g5 =>
    let g6 := ensureBinding modu nm g5
    let temp := bindingValue g6 modu nm
    resBind (check_can_assign_type modu nm g6) fun _ g7 =>
    let g8 := setBindingValue modu nm (.datatype dt) g7
    resBind (getArg args 3 g8) fun superE g9 =>
    resBind (typedefTry c dt modu nm temp (superScope c ev superE dt) g9)
      fun _ g10 =>
    resBind (typedefFinish modu nm temp dt g10) fun _ g11 =>
    .ok Value.nothing g11

/-- The `bits_type` form, including bit-width validation. -/
def eval_bitstype (c : Collab) (ev : Value → EvalM Value) (args : List Value)
    (modu : Mod) : EvalM Value :=
  fun g =>
    if g.inside_typedef then
      errorE "cannot eval a new bits type definition while defining another type" g
    else
      resBind (getArg args 0 g) fun name g0 =>
        match name with
        | .symv nm =>
          resBind (getArg args 1 g0) fun paraE g1 =>
          resBind (ev paraE g1) fun para g2 =>
            match para with
            | .svec _ =>
              resBind (getArg args 2 g2) fun nbE g3 =>
              resBind (ev nbE g3) fun vnb g4 =>
                match vnb with
                | .long nb =>
                  if nb < 1 ∨ nb ≥ (2 : Int) ^ 23 ∨ nb % 8 ≠ 0 then
                    errorE ("invalid number of bits in type " ++ symName nm) g4
                  else
                    resBind (newBitstype nm para nb g4) fun dt =>
                    eval_bitstype_rest c ev args modu nm dt
                | _ => errorE ("invalid declaration of bits type " ++ symName nm) g4
            | _ => .crash
        | _ => .crash

/-- The `composite_type` form. -/
def eval_compositetype (c : Collab) (ev : Value → EvalM Value) (args : List Value)
    (modu : Mod) : EvalM Value :=
  fun g =>
    if g.inside_typedef then
      errorE "cannot eval a new data type definition while defining another type" g
    else
      resBind (getArg args 0 g) fun name g0 =>
        match name with
        | .symv nm =>
          resBind (getArg args 1 g0) fun paraE g1 =>
          resBind (ev paraE g1) fun para g2 =>
            match para with
            | .svec _ =>
              resBind (getArg args 2 g2) fun fnamesE g3 =>
              resBind (ev fnamesE g3) fun fnames g4 =>
              resBind (getArg args 5 g4) fun mutE g5 =>
              resBind (getArg args 6 g5) fun ninitE g6 =>
              resBind (unboxLong ninitE g6) fun ninit g7 =>
              resBind (newDatatype nm para fnames (vbeq mutE .btrue) ninit g7) fun dt g8 =>
              let g9 := ensureBinding modu nm g8
              let temp := bindingValue g9 modu nm
              resBind (check_can_assign_type modu nm g9) fun _ g10 =>
              let g11 := setBindingValue modu nm (.datatype dt) g10
              resBind (getArg args 3 g11) fun superE g12 =>
              resBind (getArg args 4 g12) fun ftypesE g13 =>
              resBind (typedefTry c dt modu nm temp
                        (compositeScope c ev superE ftypesE dt) g13) fun _ g14 =>
              let g15 := callComputeFieldOffsets c dt g14
              let g16 :=
                if vbeq para (.svec []) && c.is_datatype_make_singleton dt g15 then
                  updateDt dt (fun d => { d with inst := c.newstruct dt }) g15
                else g15
              resBind (typedefFinish modu nm temp dt g16) fun _ g17 =>
              .ok Value.nothing g17
            | _ => .crash
        | _ => .crash

/-- The module the evaluator works in:
`(lam == NULL || lam->def == NULL) ? jl_current_module : lam->def->module`. -/
def frameModule (s : Option Frame) (g : GState) : Mod :=
  match s with
  | some fr =>
    match fr.lam with
    | some li =>
      match li.defmodule with
      | some m => m
      | none => g.current_module
    | none => g.current_module
  | none => g.current_module

/-- The `static_parameter` form: frame override first, then the lambda's
static parameters (failing on an unresolved type variable). -/
def eval_static_parameter (args : List Value) (s : Option Frame) : EvalM Value :=
  fun g =>
    resBind (getArg args 0 g) fun a0 g0 =>
    resBind (unboxLong a0 g0) fun n g1 =>
      if n ≤ 0 then .crash
      else
        match s with
        | none => .crash
        | some fr =>
          match fr.sparam_vals with
          | some sp =>
            match sp.get? (n - 1).toNat with
            | some v => .ok v g1
            | none => .crash
          | none =>
            match fr.lam with
            | none => .crash
            | some li =>
              if n ≤ (li.sparam_vals.length : Int) then
                match li.sparam_vals.get? (n - 1).toNat with
                | some sp =>
                  if isTypevarV sp then
                    errorE "could not determine static parameter value" g1
                  else .ok sp g1
                | none => .crash
              else errorE "could not determine static parameter value" g1

/-- The `global` form's loop: for each argument symbol ensure a writable
binding exists in the current module (`jl_get_binding_wr`); the form yields
`nothing`. -/
def ensureGlobals (modu : Mod) : List Value → EvalM Value
  | [] => fun g => .ok Value.nothing g
  | a :: rest => fun g =>
    match a with
    | .symv nm => ensureGlobals modu rest (ensureBinding modu nm g)
    | _ => .crash

/-- `eval(e, s)`: the expression evaluator.  The fuel argument only bounds
the recursion depth (`Res.oom` when exhausted); every C execution that
terminates is reproduced by all sufficiently large fuels. -/
def eval (c : Collab) : Nat → Value → Option Frame → EvalM Value
  | 0, _, _ => fun _ => .oom
  | fuel + 1, e, s => fun g =>
    match e with
    | .vnull => .crash
    | .ssav id =>
      match s with
      | none => .crash
      | some fr =>
        match fr.lam with
        | none => .crash
        | some li =>
          match linfo_nssavalues li with
          | none => .crash
          | some nssa =>
            if id ≥ nssa ∨ id < 0 ∨ fr.locals = none then
              errorE "access to invalid SSAValue" g
            else
              match fr.locals with
              | some l =>
                match g.localsHeap.get? l with
                | some loc =>
                  match loc.get? (linfo_nslots li + id).toNat with
                  | some v => .ok v g
                  | none => .crash
                | none => .crash
              | none => .crash
    | .slotv n =>
      match s with
      | none => .crash
      | some fr =>
        match fr.lam with
        | none => .crash
        | some li =>
          if n > linfo_nslots li ∨ n < 1 ∨ fr.locals = none then
            errorE "access to invalid slot number" g
          else
            match fr.locals with
            | some l =>
              match g.localsHeap.get? l with
              | some loc =>
                match loc.get? (n - 1).toNat with
                | some v =>
                  if vbeq v .vnull then
                    match li.slotnames.get? (n - 1).toNat with
                    | some snm => throwE (.exc_undefvar snm) g
                    | none => .crash
                  else .ok v g
                | none => .crash
              | none => .crash
            | none => .crash
    | .globalref m s' =>
      match jl_get_global g m s' with
      | .vnull => throwE (.exc_undefvar s') g
      | v => .ok v g
    | .quotenode v => .ok v g
    | .symv snm =>
      match jl_get_global g (frameModule s g) snm with
      | .vnull => throwE (.exc_undefvar snm) g
      | v => .ok v g
    | .expr h args =>
      match h with
      | .call => do_call c (fun v => eval c fuel v s) args g
      | .invoke => do_invoke c (fun v => eval c fuel v s) args g
      | .new => eval_new c (fun v => eval c fuel v s) args g
      | .static_parameter => eval_static_parameter args s g
      | .inert => resBind (getArg args 0 g) fun a0 g0 => .ok a0 g0
      | .copyast =>
        resBind (getArg args 0 g) fun a0 g0 =>
        resBind (eval c fuel a0 s g0) fun v g1 =>
        callCopyAst c v g1
      | .static_typeof => .ok c.any_type g
      | .the_exception => .ok g.exc_in_transit g
      | .method => eval_method c (fun v => eval c fuel v s) args (frameModule s g) g
      | .const =>
        resBind (getArg args 0 g) fun sym g0 =>
          match sym with
          | .symv nm =>
            .ok Value.nothing (declareConstant (frameModule s g) nm
              (ensureBinding (frameModule s g) nm g0))
          | _ => .crash
      | .global => ensureGlobals (frameModule s g) args g
      | .abstracttype => eval_abstracttype c (fun v => eval c fuel v s) args (frameModule s g) g
      | .bitstype => eval_bitstype c (fun v => eval c fuel v s) args (frameModule s g) g
      | .compositetype => eval_compositetype c (fun v => eval c fuel v s) args (frameModule s g) g
      | .module => callEvalModule c e g
      | .thunk => callToplevelEval c e g
      | .error | .incomplete =>
        if args.length == 0 then errorE "malformed \"error\" expression" g
        else
          match args.get? 0 with
          | some (.strv msg) => errorE ("syntax: " ++ msg) g
          | some v => throwE v g
          | none => .crash
      | .boundscheck | .inbounds | .fastmath | .simdloop | .meta | .type_goto =>
        .ok Value.nothing g
      | _ => errorE ("unsupported or misplaced expression " ++ symName h) g
    | _ => .ok e g

/-- Store into a frame-locals vector; `none` models an out-of-bounds or
dangling unchecked write. -/
def writeLocal (l : Nat) (idx : Nat) (v : Value) (g : GState) : Option GState :=
  match g.localsHeap.get? l with
  | some loc =>
    if idx < loc.length then
      some { g with localsHeap := g.localsHeap.set l (loc.set idx v) }
    else none
  | none => none

/-- `eval_body(stmts, s, start, toplevel)`: the statement-level control
machine.  Each loop iteration consumes one unit of fuel. -/
def eval_body (c : Collab) : Nat → List Value → Option Frame → Nat → Bool → EvalM Value
  | 0, _, _, _, _ => fun _ => .oom
  | fuel + 1, stmts, s, i, toplevel => fun g =>
    if i ≥ stmts.length then
      errorE "`body` expression must terminate in `return`. Use `block` instead." g
    else
      match stmts.get? i with
      | none => .crash
      | some stmt =>
        match stmt with
        | .gotonode label =>
          eval_body c fuel stmts s (wrapIdx (label - 1)) toplevel g
        | .expr h args =>
          match h with
          | .ret =>
            resBind (getArg args 0 g) fun ex g0 =>
              if toplevel && c.is_toplevel_only_expr ex then callToplevelEval c ex g0
              else eval c fuel ex s g0
          | .assign =>
            resBind (getArg args 0 g) fun sym g0 =>
            resBind (getArg args 1 g0) fun rhsE g1 =>
            resBind (eval c fuel rhsE s g1) fun rhs g2 =>
              match sym with
              | .ssav genid =>
                match s with
                | none => .crash
                | some fr =>
                  match fr.lam with
                  | none => .crash
                  | some li =>
                    match linfo_nssavalues li with
                    | none => .crash
                    | some nssa =>
                      if genid ≥ nssa ∨ genid < 0 then
                        errorE "assignment to invalid GenSym location" g2
                      else
                        match fr.locals with
                        | none => .crash
                        | some l =>
                          match writeLocal l (linfo_nslots li + genid).toNat rhs g2 with
                          | some g3 => eval_body c fuel stmts s (i + 1) toplevel g3
                          | none => .crash
              | .slotv n =>
                match s with
                | none => .crash
                | some fr =>
                  match fr.lam with
                  | none => .crash
                  | some li =>
                    if n ≤ linfo_nslots li ∧ 0 < n then
                      match fr.locals with
                      | none => .crash
                      | some l =>
                        match writeLocal l (n - 1).toNat rhs g2 with
                        | some g3 => eval_body c fuel stmts s (i + 1) toplevel g3
                        | none => .crash
                    else .crash
              | .globalref m gs =>
                let g3 := checkedAssignment m gs rhs (ensureBinding m gs g2)
                eval_body c fuel stmts s (i + 1) toplevel g3
              | .symv nm =>
                let m := frameModule s g2
                let g3 := checkedAssignment m nm rhs (ensureBinding m nm g2)
                eval_body c fuel stmts s (i + 1) toplevel g3
              | _ => .crash
          | .goto_ifnot =>
            resBind (getArg args 0 g) fun condE g0 =>
            resBind (eval c fuel condE s g0) fun cond g1 =>
              match cond with
              | .bfalse =>
                resBind (getArg args 1 g1) fun labE g2 =>
                resBind (unboxLong labE g2) fun label g3 =>
                eval_body c fuel stmts s (wrapIdx (label - 1)) toplevel g3
              | .btrue => eval_body c fuel stmts s (i + 1) toplevel g1
              | _ => throwE (.exc_type "toplevel" "if" c.bool_type cond) g1
          | .line =>
            if toplevel then
              resBind (getArg args 0 g) fun a0 g0 =>
              resBind (unboxLong a0 g0) fun ln g1 =>
              eval_body c fuel stmts s (i + 1) toplevel { g1 with lineno := ln }
            else eval_body c fuel stmts s (i + 1) toplevel g
          | .enter =>
            let d0 := g.handlers
            match eval_body c fuel stmts s (i + 1) toplevel { g with handlers := d0 + 1 } with
            | .ok v g' => .ok v g'
            | .thrown _ g' =>
              resBind (getArg args 0 g') fun a0 g'' =>
              resBind (unboxLong a0 g'') fun label g3 =>
              eval_body c fuel stmts s (wrapIdx (label - 1)) toplevel { g3 with handlers := d0 }
            | .crash => .crash
            | .oom => .oom
          | .leave =>
            resBind (getArg args 0 g) fun a0 g0 =>
            resBind (unboxLong a0 g0) fun n g1 =>
            eval_body c fuel stmts s (i + 1) toplevel { g1 with handlers := g1.handlers - n.toNat }
          | _ =>
            if toplevel && c.is_toplevel_only_expr stmt then
              resBind (callToplevelEval c stmt g) fun _ g' =>
                eval_body c fuel stmts s (i + 1) toplevel g'
            else
              resBind (eval c fuel stmt s g) fun _ g' =>
                eval_body c fuel stmts s (i + 1) toplevel g'
        | .linenode ln =>
          eval_body c fuel stmts s (i + 1) toplevel
            (if toplevel then { g with lineno := ln } else g)
        | .newvarnode var =>
          match var with
          | .slotv n =>
            match s with
            | none => .crash
            | some fr =>
              match fr.lam with
              | none => .crash
              | some li =>
                if n ≤ linfo_nslots li ∧ 0 < n then
                  match fr.locals with
                  | none => .crash
                  | some l =>
                    match writeLocal l (n - 1).toNat Value.vnull g with
                    | some g' => eval_body c fuel stmts s (i + 1) toplevel g'
                    | none => .crash
                else .crash
          | _ => .crash
        | _ =>
          resBind (eval c fuel stmt s g) fun _ g' =>
            eval_body c fuel stmts s (i + 1) toplevel g'

/-- `jl_interpret_toplevel_expr(e)`: evaluate with no frame. -/
def jl_interpret_toplevel_expr (c : Collab) (fuel : Nat) (e : Value) : EvalM Value :=
  eval c fuel e none

/-- `jl_interpret_toplevel_expr_in(m, e, lam)`: switch both current-module
cells to `m`, evaluate, and restore them on both the success and the failure
path (the failure is rethrown). -/
def jl_interpret_toplevel_expr_in (c : Collab) (fuel : Nat) (m : Mod) (e : Value)
    (lam : Option LambdaInfo) : EvalM Value :=
  fun g =>
    let last_m := g.current_module
    let task_last_m := g.task_current_module
    let fr : Frame := ⟨lam, none, none⟩
    match eval c fuel e (some fr) { g with current_module := m, task_current_module := m } with
    | .ok v g' =>
      match v with
      | .vnull => .crash
      | _ => .ok v { g' with current_module := last_m, task_current_module := task_last_m }
    | .thrown _ g' =>
      let g'' := { g' with current_module := last_m, task_current_module := task_last_m }
      .thrown g''.exc_in_transit g''
    | .crash => .crash
    | .oom => .oom

/-- `jl_toplevel_eval_body(stmts)`: run a top-level body with no frame. -/
def jl_toplevel_eval_body (c : Collab) (fuel : Nat) (stmts : List Value) : EvalM Value :=
  eval_body c fuel stmts none 0 true

/-- The argument-initialisation loop of `jl_interpret_call`:
`for(i=0; i < lam->nargs; i++)` with the varargs tuple in the last formal
slot.  The first counter counts the remaining formals (`lam->nargs - i`). -/
def initArgSlots (lam : LambdaInfo) (args : List Value) :
    Nat → Nat → List Value → Option (List Value)
  | 0, _, loc => some loc
  | k + 1, i, loc =>
    let entry? : Option Value :=
      if lam.isva && i + 1 == lam.nargs then
        if i ≤ args.length then some (fTuple (args.drop i)) else none
      else args.get? i
    match entry? with
    | none => none
    | some v =>
      if i < loc.length then initArgSlots lam args k (i + 1) (loc.set i v) else none

/-- `jl_interpret_call(lam, args, nargs, sparam_vals)`.  `args` carries the
`nargs` actual arguments. -/
def jl_interpret_call (c : Collab) (fuel : Nat) (lam : LambdaInfo) (args : List Value)
    (sparam_vals : Option (List Value)) : EvalM Value :=
  fun g =>
    match linfo_nssavalues lam with
    | none => .crash
    | some nssa =>
      if nssa < 0 then .crash
      else
        let nloc := lam.slotflags.length + nssa.toNat
        let l := g.localsHeap.length
        match initArgSlots lam args lam.nargs 0 (List.replicate nloc Value.vnull) with
        | none => .crash
        | some loc0 =>
          let g1 := { g with localsHeap := g.localsHeap ++ [loc0] }
          let fr : Frame := ⟨some lam, some l, sparam_vals⟩
          eval_body c fuel lam.code (some fr) 0 (lam.nargs == 0) g1

/-- `jl_interpret_toplevel_thunk(lam)`: a zero-argument `jl_interpret_call`. -/
def jl_interpret_toplevel_thunk (c : Collab) (fuel : Nat) (lam : LambdaInfo) : EvalM Value :=
  jl_interpret_call c fuel lam [] none

/-- The copy loop of claim C2 read literally: `for i in 0..nargs-1 copy
args[i] into locals[i]` where `nargs` is the number of actuals. -/
def copyArgsSpec : List Value → Nat → List Value → Option (List Value)
  | [], _, loc => some loc
  | a :: rest, i, loc =>
    if i < loc.length then copyArgsSpec rest (i + 1) (loc.set i a) else none

/-- Claim C2's reading of `interpret_call`, written from the spec's words
(§4.3): "allocate a rooted `locals` vector of length `nslots + nssavalues`;
for `i` in `0..nargs-1` copy `args[i]` into `locals[i]`; if `lam.isva`, the
final formal slot receives a tuple of the trailing actuals.  Then run the
body with `toplevel = (nargs == 0)`" — with `nargs` the actual-argument
count of the call.  Compared against `jl_interpret_call` for claim C2. -/
def jl_interpret_call_claimC2 (c : Collab) (fuel : Nat) (lam : LambdaInfo)
    (args : List Value) (sparam_vals : Option (List Value)) : EvalM Value :=
  fun g =>
    match linfo_nssavalues lam with
    | none => .crash
    | some nssa =>
      if nssa < 0 then .crash
      else
        let nloc := lam.slotflags.length + nssa.toNat
        let l := g.localsHeap.length
        match copyArgsSpec args 0 (List.replicate nloc Value.vnull) with
        | none => .crash
        | some loc1 =>
          let loc? : Option (List Value) :=
            if lam.isva then
              if lam.nargs - 1 < loc1.length ∧ lam.nargs - 1 ≤ args.length then
                some (loc1.set (lam.nargs - 1) (fTuple (args.drop (lam.nargs - 1))))
              else none
            else some loc1
          match loc? with
          | none => .crash
          | some loc2 =>
            let g1 := { g with localsHeap := g.localsHeap ++ [loc2] }
            let fr : Frame := ⟨some lam, some l, sparam_vals⟩
            eval_body c fuel lam.code (some fr) 0 (args.length == 0) g1

/-- A concrete, inert collaborator for the witnesses: dispatch returns
`nothing`, instantiation succeeds without touching the state, the subtype
oracles answer `false` and the field-type oracle accepts everything. -/
def c0 : Collab where
  apply_generic := fun _ g => .ok .nothing g
  call_method_internal := fun _ _ g => .ok .nothing g
  lamInInference := fun _ => false
  is_structtype := fun _ => false
  is_type := fun _ => true
  subtype := fun _ _ => false
  is_tuple_type := fun _ => false
  any_type := .other 1
  bool_type := .other 2
  type_type := .other 3
  vararg_type := .other 4
  builtin_type := .other 5
  reinstantiate_inner_types := fun _ g => .ok () g
  reset_instantiate_inner_types := fun _ g => g
  compute_field_offsets := fun _ g => g
  is_datatype_make_singleton := fun _ _ => false
  newstruct := fun r => .structv r []
  copy_ast := fun v g => .ok v g
  toplevel_eval := fun _ g => .ok .nothing g
  is_toplevel_only_expr := fun _ => false
  eval_module_expr := fun _ g => .ok .nothing g
  generic_function_def := fun _ _ g => .ok (.other 10) g
  method_def := fun _ _ _ g => .ok () g

/-- An empty initial state for the witnesses. -/
def g0 : GState where
  heap := []
  localsHeap := []
  bindings := fun _ _ => none
  current_module := 0
  task_current_module := 0
  inside_typedef := false
  exc_in_transit := .vnull
  lineno := 0
  handlers := 0
  trace := []

/-- Scenario 1 of spec §8: straight-line body `[(= %1 7), (return %1)]` with
`nslots = 0`, `nssavalues = 1` evaluates to `7`. -/
def lamStraight : LambdaInfo where
  code := [.expr .assign [.ssav 0, .quotenode (.long 7)], .expr .ret [.ssav 0]]
  slotflags := []
  slotnames := []
  ssavaluetypes := .long 1
  nargs := 0
  isva := false
  sparam_vals := []
  defmodule := none
  inInf := false

/-- Scenario 3 of spec §8: `[(return slot1)]` with an uninitialized slot
raises the undefined-variable error naming the slot. -/
def lamUndef : LambdaInfo where
  code := [.expr .ret [.slotv 1]]
  slotflags := [0]
  slotnames := [.name "x"]
  ssavaluetypes := .long 0
  nargs := 0
  isva := false
  sparam_vals := []
  defmodule := none
  inInf := false

/-- A state whose locals heap holds one single-slot frame vector with an
uninitialized entry, matching `lamUndef`. -/
def gC3 : GState := { g0 with localsHeap := [[Value.vnull]] }

/-- A collaborator whose generic dispatch implements `+` and `<` on longs
(the callee is passed as a quoted token). -/
def c1 : Collab :=
  { c0 with
    apply_generic := fun argv g =>
      match argv with
      | [.other 20, .long a, .long b] => .ok (.long (a + b)) g
      | [.other 21, .long a, .long b] => .ok (if a < b then .btrue else .bfalse) g
      | _ => .ok .nothing g }

/-- Scenario 2 of spec §8: the counting loop over slot 1 returns `3`,
exercising `goto`, `goto_ifnot`, both branch label conversions, and `call`. -/
def lamLoop : LambdaInfo where
  code :=
    [.expr .assign [.slotv 1, .quotenode (.long 0)],
     .expr .assign [.slotv 1, .expr .call [.quotenode (.other 20), .slotv 1, .quotenode (.long 1)]],
     .expr .goto_ifnot [.expr .call [.quotenode (.other 21), .slotv 1, .quotenode (.long 3)], .long 5],
     .gotonode 2,
     .expr .ret [.slotv 1]]
  slotflags := [0]
  slotnames := [.name "x"]
  ssavaluetypes := .long 0
  nargs := 0
  isva := false
  sparam_vals := []
  defmodule := none
  inInf := false

/-- C2 counterexample, part 1: a non-vararg method whose lambda declares one
formal (`lam.nargs = 1`) and returns slot 2. -/
def lamC2a : LambdaInfo where
  code := [.expr .ret [.slotv 2]]
  slotflags := [0, 0]
  slotnames := [.name "x", .name "y"]
  ssavaluetypes := .long 0
  nargs := 1
  isva := false
  sparam_vals := []
  defmodule := none
  inInf := false

/-- C2 counterexample, part 2: a vararg method with one formal and a
top-level-only-sensitive `line` statement. -/
def lamC2b : LambdaInfo where
  code := [.expr .line [.long 7], .expr .ret [.quotenode (.long 1)]]
  slotflags := [0]
  slotnames := [.name "xs"]
  ssavaluetypes := .long 0
  nargs := 1
  isva := true
  sparam_vals := []
  defmodule := none
  inInf := false

/-- Left-to-right sequential evaluation of an argument list: each argument is
fully evaluated — including all its state effects — before the next one
starts, and the values are collected in order. -/
inductive EvalSeq (c : Collab) (fuel : Nat) (s : Option Frame) :
    List Value → GState → List Value → GState → Prop where
  | nil (g : GState) : EvalSeq c fuel s [] g [] g
  | cons {a : Value} {rest : List Value} {g g' g'' : GState} {v : Value} {vs : List Value} :
      eval c fuel a s g = .ok v g' →
      EvalSeq c fuel s rest g' vs g'' →
      EvalSeq c fuel s (a :: rest) g (v :: vs) g''

/-- "The result value, if any, is `nothing`": the invariant behind claim C10. -/
def RVN (r : Res Value) : Prop := ∀ v g', r = .ok v g' → v = .nothing

/-- An abstract supertype `S` for the C6 witness. -/
def dtSup : Datatype where
  name := .name "S"
  names := .svec []
  parameters := .svec []
  types := .svec []
  super := .vnull
  abstract := true
  mutabl := false
  size := 0
  ninitialized := 0
  inst := .vnull

/-- The previously installed `Foo` for the C6 witness, structurally identical
to what a fresh non-parametric `composite_type Foo <: S` builds. -/
def dtFooOld : Datatype where
  name := .name "Foo"
  names := .svec []
  parameters := .svec []
  types := .svec []
  super := .datatype 0
  abstract := false
  mutabl := false
  size := 0
  ninitialized := 0
  inst := .vnull

/-- The C6 witness state: `S` bound to the abstract type at heap slot 0 and
`Foo` bound to the old concrete type at heap slot 1. -/
def gC6 : GState :=
  { g0 with
    heap := [dtSup, dtFooOld]
    bindings := fun m s =>
      if m = 0 ∧ s = .name "S" then some ⟨.datatype 0, false⟩
      else if m = 0 ∧ s = .name "Foo" then some ⟨.datatype 1, false⟩
      else none }

/-- The C6 witness form: `composite_type Foo() <: S` with no fields, not
mutable, zero initialized fields. -/
def argsC6 : List Value :=
  [.symv (.name "Foo"), .quotenode (.svec []), .quotenode (.svec []),
   .symv (.name "S"), .quotenode (.svec []), .bfalse, .long 0]

example : eval c0 5 (.quotenode (.long 7)) none g0 = .ok (.long 7) g0 := rfl

example : ∃ gf, jl_interpret_call c0 10 lamStraight [] none g0 = .ok (.long 7) gf :=
  ⟨_, rfl⟩

example : ∃ gf, jl_interpret_call c0 10 lamUndef [] none g0 =
    .thrown (.exc_undefvar (.name "x")) gf :=
  ⟨_, rfl⟩

example : ∃ gf, jl_interpret_call c1 60 lamLoop [] none g0 = .ok (.long 3) gf :=
  ⟨_, rfl⟩

/-- C5: after `interpret_toplevel_expr_in(m, e, lam?)`, on both normal return
and throw (the failure being rethrown), the process-current module and the
task-current module equal their values before the call. -/
theorem claim_C5_module_restoration (c : Collab) (fuel : Nat) (m : Mod) (e : Value)
    (lam : Option LambdaInfo) (g : GState) :
    (∀ v g', jl_interpret_toplevel_expr_in c fuel m e lam g = .ok v g' →
      g'.current_module = g.current_module ∧
      g'.task_current_module = g.task_current_module) ∧
    (∀ exc g', jl_interpret_toplevel_expr_in c fuel m e lam g = .thrown exc g' →
      g'.current_module = g.current_module ∧
      g'.task_current_module = g.task_current_module) := by
  unfold jl_interpret_toplevel_expr_in
  constructor
  · intro v g' h
    dsimp only at h
    split at h
    · split at h
      · exact absurd h (by simp)
      · cases h; exact ⟨rfl, rfl⟩
    · exact absurd h (by simp)
    · exact absurd h (by simp)
    · exact absurd h (by simp)
  · intro exc g' h
    dsimp only at h
    split at h
    · split at h
      · exact absurd h (by simp)
      · exact absurd h (by simp)
    · cases h; exact ⟨rfl, rfl⟩
    · exact absurd h (by simp)
    · exact absurd h (by simp)

/-- Witness for C5 at a concrete input: evaluating a quoted literal in module
3 returns it and leaves both current-module cells at their prior value. -/
theorem claim_C5_witness :
    ∃ g', jl_interpret_toplevel_expr_in c0 5 3 (.quotenode (.long 1)) none g0 =
        .ok (.long 1) g' ∧
      g'.current_module = g0.current_module ∧
      g'.task_current_module = g0.task_current_module :=
  ⟨_, rfl, (claim_C5_module_restoration c0 5 3 (.quotenode (.long 1)) none g0).1 _ _ rfl⟩


/-- `vbeq v vnull` is false for every non-NULL value (the pointer test
`v == NULL`). -/
theorem vbeq_vnull_eq_false {v : Value} (h : v ≠ .vnull) : vbeq v .vnull = false := by
  cases v
  · exact absurd rfl h
  all_goals rfl

/-- C3 counterexample: evaluating an SSA or slot reference with no frame at
all does not raise the claimed errors — `jl_linfo_nssavalues(lam)` /
`jl_linfo_nslots(lam)` dereference the NULL lambda info, a crash. -/
theorem claim_C3_counterexample :
    eval c0 1 (.ssav 0) none g0 = .crash ∧
    eval c0 1 (.slotv 1) none g0 = .crash :=
  ⟨rfl, rfl⟩

/-- C3 amended: when the frame carries lambda info, an SSA reference with
`id` out of range or absent locals raises "access to invalid SSAValue" and an
in-range read returns `locals[nslots + id]`; a slot reference with `n` out of
range or absent locals raises "access to invalid slot number", an in-range
but absent (NULL) slot raises the undefined-variable error naming
`slotnames[n-1]`, and otherwise `locals[n-1]` is returned.  With no frame or
no lambda info the access is a NULL dereference (crash), not a raised error. -/
theorem claim_C3_slot_ssa_access (c : Collab) (fuel : Nat) (fr : Frame)
    (li : LambdaInfo) (nssa : Int) (g : GState)
    (hlam : fr.lam = some li) (hnssa : linfo_nssavalues li = some nssa) :
    (∀ id : Int, (id ≥ nssa ∨ id < 0 ∨ fr.locals = none) →
      eval c (fuel + 1) (.ssav id) (some fr) g =
        errorE "access to invalid SSAValue" g) ∧
    (∀ (id : Int) (l : Nat) loc v, ¬id ≥ nssa → ¬id < 0 → fr.locals = some l →
      g.localsHeap.get? l = some loc →
      loc.get? (linfo_nslots li + id).toNat = some v →
      eval c (fuel + 1) (.ssav id) (some fr) g = .ok v g) ∧
    (∀ n : Int, (n > linfo_nslots li ∨ n < 1 ∨ fr.locals = none) →
      eval c (fuel + 1) (.slotv n) (some fr) g =
        errorE "access to invalid slot number" g) ∧
    (∀ (n : Int) (l : Nat) loc v, ¬n > linfo_nslots li → ¬n < 1 → fr.locals = some l →
      g.localsHeap.get? l = some loc →
      loc.get? (n - 1).toNat = some v → v ≠ .vnull →
      eval c (fuel + 1) (.slotv n) (some fr) g = .ok v g) ∧
    (∀ (n : Int) (l : Nat) loc snm, ¬n > linfo_nslots li → ¬n < 1 → fr.locals = some l →
      g.localsHeap.get? l = some loc →
      loc.get? (n - 1).toNat = some Value.vnull →
      li.slotnames.get? (n - 1).toNat = some snm →
      eval c (fuel + 1) (.slotv n) (some fr) g =
        .thrown (.exc_undefvar snm) { g with exc_in_transit := .exc_undefvar snm }) := by
  refine ⟨?_, ?_, ?_, ?_, ?_⟩
  · intro id hcond
    simp only [eval]
    rw [hlam]
    simp only [hnssa]
    rw [if_pos hcond]
  · intro id l loc v h1 h2 hl hheap hv
    simp only [eval]
    rw [hlam]
    simp only [hnssa]
    rw [if_neg (by simp [h1, h2, hl]), hl]
    simp only [hheap, hv]
  · intro n hcond
    simp only [eval]
    rw [hlam]
    dsimp only
    rw [if_pos hcond]
  · intro n l loc v h1 h2 hl hheap hv hvn
    simp only [eval]
    rw [hlam]
    dsimp only
    rw [if_neg (by simp [h1, h2, hl]), hl]
    simp only [hheap, hv]
    rw [if_neg (by simp [vbeq_vnull_eq_false hvn])]
  · intro n l loc snm h1 h2 hl hheap hv hs
    simp only [eval]
    rw [hlam]
    dsimp only
    rw [if_neg (by simp [h1, h2, hl]), hl]
    simp only [hheap, hv, hs]
    rfl

/-- Witness for the C3 theorem at concrete inputs: a frame over the one-slot,
zero-SSA `lamUndef` with locals `[NULL]`; the out-of-range SSA conjunct and
the absent-slot conjunct are instantiated. -/
theorem claim_C3_witness :
    eval c0 1 (.ssav 1) (some ⟨some lamUndef, some 0, none⟩) gC3 =
      errorE "access to invalid SSAValue" gC3 ∧
    eval c0 1 (.slotv 1) (some ⟨some lamUndef, some 0, none⟩) gC3 =
      .thrown (.exc_undefvar (.name "x"))
        { gC3 with exc_in_transit := .exc_undefvar (.name "x") } := by
  constructor
  · exact (claim_C3_slot_ssa_access c0 0 _ lamUndef 0 gC3 rfl rfl).1 1 (by left; decide)
  · exact (claim_C3_slot_ssa_access c0 0 _ lamUndef 0 gC3 rfl rfl).2.2.2.2 1 0 [Value.vnull]
      (.name "x") (by decide) (by decide) rfl rfl rfl rfl

/-- Stepping `eval_body` at or past the end of the statement list raises the
IR-shape error before any statement fetch. -/
theorem eval_body_past_end (c : Collab) (fuel : Nat) (stmts : List Value)
    (s : Option Frame) (i : Nat) (tl : Bool) (g : GState) (h : i ≥ stmts.length) :
    eval_body c (fuel + 1) stmts s i tl g =
      errorE "`body` expression must terminate in `return`. Use `block` instead." g := by
  simp only [eval_body]
  rw [if_pos h]

/-- A branch target that is `0` or beyond the body's end lands at an index
`≥ len` after the C `size_t` conversion `i = label - 1`. -/
theorem wrapIdx_out (len : Nat) (label : Int) (hlen : (len : Int) < (2 : Int) ^ 63)
    (hub : label ≤ (2 : Int) ^ 63) (hlb : -(2 : Int) ^ 63 ≤ label)
    (hbad : label ≤ 0 ∨ (len : Int) < label) : wrapIdx (label - 1) ≥ len := by
  unfold wrapIdx
  have h63 : (2 : Int) ^ 63 = 9223372036854775808 := by norm_num
  have h64 : (2 : Int) ^ 64 = 18446744073709551616 := by norm_num
  rw [h64]
  rw [h63] at hlen hub hlb
  rcases hbad with h | h
  · omega
  · omega

/-- C4: for a `goto_ifnot` statement, a condition that is exactly the false
constant branches to `label - 1`, exactly the true constant falls through to
the next statement, and anything else raises the type error demanding a
boolean. -/
theorem claim_C4_goto_ifnot (c : Collab) (fuel : Nat) (stmts : List Value)
    (s : Option Frame) (i : Nat) (tl : Bool) (g g1 : GState)
    (condE : Value) (label : Int) (cond : Value)
    (hin : i < stmts.length)
    (hi : stmts.get? i = some (.expr .goto_ifnot [condE, .long label]))
    (hc : eval c fuel condE s g = .ok cond g1) :
    (cond = .bfalse → eval_body c (fuel + 1) stmts s i tl g =
        eval_body c fuel stmts s (wrapIdx (label - 1)) tl g1) ∧
    (cond = .btrue → eval_body c (fuel + 1) stmts s i tl g =
        eval_body c fuel stmts s (i + 1) tl g1) ∧
    (cond ≠ .bfalse → cond ≠ .btrue → eval_body c (fuel + 1) stmts s i tl g =
        .thrown (.exc_type "toplevel" "if" c.bool_type cond)
          { g1 with exc_in_transit := .exc_type "toplevel" "if" c.bool_type cond }) := by
  refine ⟨?_, ?_, ?_⟩
  · intro hcond
    subst hcond
    conv_lhs => rw [eval_body]
    dsimp only
    rw [if_neg (by omega)]
    simp only [hi]
    dsimp only [getArg, List.get?, resBind]
    rw [hc]
    dsimp only [unboxLong]
  · intro hcond
    subst hcond
    conv_lhs => rw [eval_body]
    dsimp only
    rw [if_neg (by omega)]
    simp only [hi]
    dsimp only [getArg, List.get?, resBind]
    rw [hc]
  · intro hf ht
    conv_lhs => rw [eval_body]
    dsimp only
    rw [if_neg (by omega)]
    simp only [hi]
    dsimp only [getArg, List.get?, resBind]
    rw [hc]
    cases cond
    all_goals first
      | exact absurd rfl hf
      | exact absurd rfl ht
      | rfl

/-- Witness for C4 at a concrete input: a quoted false condition branches
(first conjunct), instantiated with label 1 at statement 0. -/
theorem claim_C4_witness :
    eval_body c0 2 [.expr .goto_ifnot [.quotenode .bfalse, .long 1]] none 0 true g0 =
      eval_body c0 1 [.expr .goto_ifnot [.quotenode .bfalse, .long 1]] none (wrapIdx 0) true g0 :=
  (claim_C4_goto_ifnot c0 1 [.expr .goto_ifnot [.quotenode .bfalse, .long 1]] none 0 true
    g0 g0 (.quotenode .bfalse) 1 .bfalse (by decide) rfl rfl).1 rfl

/-- C7: reaching an instruction index at or past the end of the body raises
the fatal error "`body` expression must terminate in `return`" before any
statement fetch; a `goto`, a taken `goto_ifnot`, or a caught `enter` whose
label is 0 (or negative, or beyond the body's end) lands past the end by the
`size_t` conversion `i = label - 1` and raises the same error on the next
iteration. -/
theorem claim_C7_body_termination (c : Collab) (fuel : Nat) (stmts : List Value)
    (s : Option Frame) (tl : Bool) (g : GState)
    (hlen : (stmts.length : Int) < (2 : Int) ^ 63) :
    (∀ i, i ≥ stmts.length →
      eval_body c (fuel + 1) stmts s i tl g =
        errorE "`body` expression must terminate in `return`. Use `block` instead." g) ∧
    (∀ i label, i < stmts.length → stmts.get? i = some (.gotonode label) →
      label ≤ (2 : Int) ^ 63 → -(2 : Int) ^ 63 ≤ label →
      (label ≤ 0 ∨ (stmts.length : Int) < label) →
      eval_body c (fuel + 2) stmts s i tl g =
        errorE "`body` expression must terminate in `return`. Use `block` instead." g) ∧
    (∀ i condE label g1, i < stmts.length →
      stmts.get? i = some (.expr .goto_ifnot [condE, .long label]) →
      eval c (fuel + 1) condE s g = .ok .bfalse g1 →
      label ≤ (2 : Int) ^ 63 → -(2 : Int) ^ 63 ≤ label →
      (label ≤ 0 ∨ (stmts.length : Int) < label) →
      eval_body c (fuel + 2) stmts s i tl g =
        errorE "`body` expression must terminate in `return`. Use `block` instead." g1) ∧
    (∀ i label exc g1, i < stmts.length →
      stmts.get? i = some (.expr .enter [.long label]) →
      eval_body c (fuel + 1) stmts s (i + 1) tl { g with handlers := g.handlers + 1 } =
        .thrown exc g1 →
      label ≤ (2 : Int) ^ 63 → -(2 : Int) ^ 63 ≤ label →
      (label ≤ 0 ∨ (stmts.length : Int) < label) →
      eval_body c (fuel + 2) stmts s i tl g =
        errorE "`body` expression must terminate in `return`. Use `block` instead."
          { g1 with handlers := g.handlers }) := by
  refine ⟨?_, ?_, ?_, ?_⟩
  · intro i h
    exact eval_body_past_end c fuel stmts s i tl g h
  · intro i label hin hi hub hlb hbad
    conv_lhs => rw [eval_body]
    dsimp only
    rw [if_neg (by omega)]
    simp only [hi]
    exact eval_body_past_end c fuel stmts s _ tl g (wrapIdx_out _ _ hlen hub hlb hbad)
  · intro i condE label g1 hin hi hc hub hlb hbad
    conv_lhs => rw [eval_body]
    dsimp only
    rw [if_neg (by omega)]
    simp only [hi]
    dsimp only [getArg, List.get?, resBind]
    rw [hc]
    dsimp only [unboxLong]
    exact eval_body_past_end c fuel stmts s _ tl g1 (wrapIdx_out _ _ hlen hub hlb hbad)
  · intro i label exc g1 hin hi hinner hub hlb hbad
    conv_lhs => rw [eval_body]
    dsimp only
    rw [if_neg (by omega)]
    simp only [hi]
    rw [hinner]
    dsimp only [getArg, List.get?, resBind, unboxLong]
    exact eval_body_past_end c fuel stmts s _ tl _ (wrapIdx_out _ _ hlen hub hlb hbad)

/-- Witness for C7: an empty body errors immediately, and a one-statement
body `[goto 0]` errors after the jump. -/
theorem claim_C7_witness :
    eval_body c0 1 [] none 0 true g0 =
      errorE "`body` expression must terminate in `return`. Use `block` instead." g0 ∧
    eval_body c0 2 [.gotonode 0] none 0 true g0 =
      errorE "`body` expression must terminate in `return`. Use `block` instead." g0 := by
  constructor
  · exact (claim_C7_body_termination c0 0 [] none true g0 (by norm_num)).1 0 (by decide)
  · exact (claim_C7_body_termination c0 0 [.gotonode 0] none true g0 (by norm_num)).2.1 0 0
      (by decide) rfl (by norm_num) (by norm_num) (Or.inl (by norm_num))

/-- C8: in a `bits_type` form, once the bit-width argument has evaluated to
an integer `nb`, the definition fails right there with "invalid number of
bits in type <name>" exactly when `nb` is not positive, or `nb >= 2^23`, or
`nb` is not a multiple of 8 (leaving the state untouched, so no constructor
runs); otherwise the `new_bitstype` constructor is invoked with that width
(its call is the next recorded event) and the form continues with the fresh
datatype. -/
theorem claim_C8_bits_width_validation (c : Collab) (fuel : Nat) (s : Option Frame)
    (g g1 g2 : GState) (args rest : List Value) (paraE nbE : Value) (nm : Sym)
    (ps : List Value) (nb : Int)
    (hargs : args = .symv nm :: paraE :: nbE :: rest)
    (htd : g.inside_typedef = false)
    (hpara : eval c fuel paraE s g = .ok (.svec ps) g1)
    (hnb : eval c fuel nbE s g1 = .ok (.long nb) g2) :
    ((nb < 1 ∨ nb ≥ (2 : Int) ^ 23 ∨ nb % 8 ≠ 0) →
      eval c (fuel + 1) (.expr .bitstype args) s g =
        errorE ("invalid number of bits in type " ++ symName nm) g2) ∧
    (¬(nb < 1 ∨ nb ≥ (2 : Int) ^ 23 ∨ nb % 8 ≠ 0) →
      eval c (fuel + 1) (.expr .bitstype args) s g =
        resBind (newBitstype nm (.svec ps) nb g2)
          (eval_bitstype_rest c (fun v => eval c fuel v s) args (frameModule s g) nm)) ∧
    (∃ gN, newBitstype nm (.svec ps) nb g2 = .ok g2.heap.length gN ∧
      gN.trace = g2.trace ++ [.new_bitstype nm nb]) := by
  subst hargs
  refine ⟨?_, ?_, ⟨_, rfl, rfl⟩⟩
  · intro hbad
    simp only [eval, eval_bitstype]
    rw [htd]
    dsimp only [getArg, List.get?, resBind]
    rw [hpara]
    dsimp only
    rw [hnb]
    dsimp only
    rw [if_pos hbad, if_neg (by simp)]
  · intro hgood
    simp only [eval, eval_bitstype]
    rw [htd]
    dsimp only [getArg, List.get?, resBind]
    rw [hpara]
    dsimp only
    rw [hnb]
    dsimp only
    rw [if_neg hgood, if_neg (by simp)]

/-- Witness for C8: width 7 fails with the message naming `B`; width 8
proceeds into the constructor, whose event records the width. -/
theorem claim_C8_witness :
    eval c0 2 (.expr .bitstype
        [.symv (.name "B"), .quotenode (.svec []), .quotenode (.long 7), .quotenode (.other 9)])
      none g0 =
      errorE ("invalid number of bits in type " ++ symName (.name "B")) g0 ∧
    (∃ gN, newBitstype (.name "B") (.svec []) 8 g0 = .ok g0.heap.length gN ∧
      gN.trace = g0.trace ++ [.new_bitstype (.name "B") 8]) := by
  constructor
  · exact (claim_C8_bits_width_validation c0 1 none g0 g0 g0 _
      [.quotenode (.other 9)] (.quotenode (.svec [])) (.quotenode (.long 7)) (.name "B") [] 7
      rfl rfl rfl rfl).1 (by norm_num)
  · exact (claim_C8_bits_width_validation c0 1 none g0 g0 g0
      [.symv (.name "B"), .quotenode (.svec []), .quotenode (.long 8), .quotenode (.other 9)]
      [.quotenode (.other 9)] (.quotenode (.svec [])) (.quotenode (.long 8)) (.name "B") [] 8
      rfl rfl rfl rfl).2.2

theorem RVN_crash : RVN .crash := fun _ _ h => Res.noConfusion h

theorem RVN_oom : RVN .oom := fun _ _ h => Res.noConfusion h

theorem RVN_thrown (e : Value) (g : GState) : RVN (.thrown e g) :=
  fun _ _ h => Res.noConfusion h

theorem RVN_ok_nothing (g : GState) : RVN (.ok Value.nothing g) := by
  intro v g' h
  injection h with h1 h2
  exact h1.symm

theorem RVN_bind {α : Type} (r : Res α) (f : α → EvalM Value)
    (hf : ∀ a ga, RVN (f a ga)) : RVN (resBind r f) := by
  intro v g' h
  cases r with
  | ok a ga => exact hf a ga v g' h
  | thrown e gg => exact Res.noConfusion h
  | crash => exact Res.noConfusion h
  | oom => exact Res.noConfusion h

/-- The `global` form's loop only ever returns `nothing`. -/
theorem ensureGlobals_RVN (modu : Mod) (args : List Value) (g : GState) :
    RVN (ensureGlobals modu args g) := by
  induction args generalizing g with
  | nil => exact RVN_ok_nothing g
  | cons a rest ih =>
    unfold ensureGlobals
    split
    · exact ih _
    · exact RVN_crash

/-- A successful `abstract_type` form yields `nothing`. -/
theorem eval_abstracttype_RVN (c : Collab) (ev : Value → EvalM Value) (args : List Value)
    (modu : Mod) (g : GState) : RVN (eval_abstracttype c ev args modu g) := by
  unfold eval_abstracttype getArg typedefTry typedefFinish check_can_assign_type
  repeat' first
    | exact RVN_ok_nothing _
    | exact RVN_crash
    | exact RVN_oom
    | exact RVN_thrown _ _
    | (apply RVN_bind; intro _ _)
    | split

/-- A successful `bits_type` form yields `nothing`. -/
theorem eval_bitstype_RVN (c : Collab) (ev : Value → EvalM Value) (args : List Value)
    (modu : Mod) (g : GState) : RVN (eval_bitstype c ev args modu g) := by
  unfold eval_bitstype eval_bitstype_rest getArg typedefTry typedefFinish
    check_can_assign_type
  repeat' first
    | exact RVN_ok_nothing _
    | exact RVN_crash
    | exact RVN_oom
    | exact RVN_thrown _ _
    | (apply RVN_bind; intro _ _)
    | split

/-- A successful `composite_type` form yields `nothing`. -/
theorem eval_compositetype_RVN (c : Collab) (ev : Value → EvalM Value) (args : List Value)
    (modu : Mod) (g : GState) : RVN (eval_compositetype c ev args modu g) := by
  unfold eval_compositetype getArg unboxLong typedefTry typedefFinish
    check_can_assign_type
  repeat' first
    | exact RVN_ok_nothing _
    | exact RVN_crash
    | exact RVN_oom
    | exact RVN_thrown _ _
    | (apply RVN_bind; intro _ _)
    | split

/-- A 4-argument `method` form yields `nothing` on success. -/
theorem eval_method_RVN (c : Collab) (ev : Value → EvalM Value) (args : List Value)
    (modu : Mod) (g : GState) (hlen : args.length = 4) :
    RVN (eval_method c ev args modu g) := by
  have hrest : ∀ gg, RVN (eval_method_rest c ev args gg) := by
    intro gg
    unfold eval_method_rest getArg
    repeat' first
      | exact RVN_ok_nothing _
      | exact RVN_crash
      | exact RVN_oom
      | exact RVN_thrown _ _
      | (apply RVN_bind; intro _ _)
  unfold eval_method getArg
  apply RVN_bind
  intro fname g0
  split
  · exact RVN_crash
  · split
    · apply RVN_bind
      intro gf g2
      split
      · next hcond => simp [hlen] at hcond
      · exact hrest _
    · exact hrest _



/-- C10: every successful evaluation of a `const`, `global`, `abstract_type`,
`bits_type`, or `composite_type` expression, and of a `method` expression
with four arguments, returns the unit value `nothing` — these definition and
declaration forms never produce a useful value. -/
theorem claim_C10_definition_forms_return_nothing (c : Collab) (fuel : Nat)
    (s : Option Frame) (g g' : GState) (args : List Value) (v : Value) :
    (eval c (fuel + 1) (.expr .const args) s g = .ok v g' → v = .nothing) ∧
    (eval c (fuel + 1) (.expr .global args) s g = .ok v g' → v = .nothing) ∧
    (eval c (fuel + 1) (.expr .abstracttype args) s g = .ok v g' → v = .nothing) ∧
    (eval c (fuel + 1) (.expr .bitstype args) s g = .ok v g' → v = .nothing) ∧
    (eval c (fuel + 1) (.expr .compositetype args) s g = .ok v g' → v = .nothing) ∧
    (args.length = 4 →
      eval c (fuel + 1) (.expr .method args) s g = .ok v g' → v = .nothing) := by
  have hconst : RVN (eval c (fuel + 1) (.expr .const args) s g) := by
    simp only [eval]
    unfold getArg
    repeat' first
      | exact RVN_ok_nothing _
      | exact RVN_crash
      | exact RVN_oom
      | exact RVN_thrown _ _
      | (apply RVN_bind; intro _ _)
      | split
  refine ⟨fun h => hconst v g' h, ?_, ?_, ?_, ?_, ?_⟩
  · intro h
    simp only [eval] at h
    exact ensureGlobals_RVN _ _ _ v g' h
  · intro h
    simp only [eval] at h
    exact eval_abstracttype_RVN _ _ _ _ _ v g' h
  · intro h
    simp only [eval] at h
    exact eval_bitstype_RVN _ _ _ _ _ v g' h
  · intro h
    simp only [eval] at h
    exact eval_compositetype_RVN _ _ _ _ _ v g' h
  · intro hlen h
    simp only [eval] at h
    exact eval_method_RVN _ _ _ _ _ hlen v g' h

/-- Witness for C10: a concrete `const` declaration succeeds, and its value
is `nothing` by the theorem. -/
theorem claim_C10_witness :
    ∃ (g' : GState) (v : Value),
      eval c0 1 (.expr .const [.symv (.name "cst")]) none g0 = .ok v g' ∧ v = .nothing :=
  ⟨declareConstant 0 (.name "cst") (ensureBinding 0 (.name "cst") g0), Value.nothing, rfl,
    (claim_C10_definition_forms_return_nothing c0 0 none g0
      (declareConstant 0 (.name "cst") (ensureBinding 0 (.name "cst") g0))
      [.symv (.name "cst")] Value.nothing).1 rfl⟩

/-- What the argument-initialisation loop of `jl_interpret_call` writes: it
walks the `lam.nargs` formal slots (not the actual-argument count), placing
`args[i]` in slot `i` and, when `lam.isva`, a tuple of the trailing actuals
in the final formal slot; every other entry of the vector is untouched. -/
theorem initArgSlots_get (lam : LambdaInfo) (args : List Value) :
    ∀ (k i : Nat) (loc loc0 : List Value),
      initArgSlots lam args k i loc = some loc0 →
      loc0.length = loc.length ∧
      (∀ j, (j < i ∨ i + k ≤ j) → loc0.get? j = loc.get? j) ∧
      (∀ j, i ≤ j → j < i + k →
        loc0.get? j = (if lam.isva ∧ j + 1 = lam.nargs then some (fTuple (args.drop j))
                       else args.get? j)) := by
  intro k
  induction k with
  | zero =>
    intro i loc loc0 h
    simp only [initArgSlots, Option.some.injEq] at h
    subst h
    exact ⟨rfl, fun j _ => rfl, fun j h1 h2 => absurd h2 (by omega)⟩
  | succ k ih =>
    intro i loc loc0 h
    have main : ∀ v : Value, i < loc.length →
        initArgSlots lam args k (i + 1) (loc.set i v) = some loc0 →
        loc0.length = loc.length ∧
        (∀ j, (j < i ∨ i + (k + 1) ≤ j) → loc0.get? j = loc.get? j) ∧
        loc0.get? i = some v ∧
        (∀ j, i + 1 ≤ j → j < i + (k + 1) →
          loc0.get? j = (if lam.isva ∧ j + 1 = lam.nargs then some (fTuple (args.drop j))
                         else args.get? j)) := by
      intro v hilen hrec
      obtain ⟨hlen, hout, hin⟩ := ih (i + 1) (loc.set i v) loc0 hrec
      refine ⟨by simpa using hlen, ?_, ?_, ?_⟩
      · intro j hj
        rw [hout j (by omega)]
        simp only [List.get?_eq_getElem?]
        exact List.getElem?_set_ne (by omega)
      · rw [hout i (by omega)]
        simp only [List.get?_eq_getElem?]
        exact List.getElem?_set_eq_of_lt v hilen
      · intro j h1 h2
        exact hin j (by omega) (by omega)
    unfold initArgSlots at h
    dsimp only at h
    by_cases hva : (lam.isva && i + 1 == lam.nargs) = true
    · rw [if_pos hva] at h
      by_cases hle : i ≤ args.length
      · rw [if_pos hle] at h
        dsimp only at h
        split at h
        next hilen =>
          obtain ⟨hlen, hout, hi, hrest⟩ := main _ hilen h
          refine ⟨hlen, hout, ?_⟩
          intro j h1 h2
          rcases Nat.eq_or_lt_of_le h1 with rfl | hlt
          · rw [hi, if_pos ?_]
            rcases Bool.and_eq_true_iff.mp hva with ⟨hv1, hv2⟩
            exact ⟨hv1, by simpa using hv2⟩
          · exact hrest j (by omega) h2
        next => exact Option.noConfusion h
      · rw [if_neg hle] at h
        exact Option.noConfusion h
    · rw [if_neg hva] at h
      cases hget : args.get? i with
      | none =>
        rw [hget] at h
        exact Option.noConfusion h
      | some v =>
        rw [hget] at h
        dsimp only at h
        split at h
        next hilen =>
          obtain ⟨hlen, hout, hi, hrest⟩ := main _ hilen h
          refine ⟨hlen, hout, ?_⟩
          intro j h1 h2
          rcases Nat.eq_or_lt_of_le h1 with rfl | hlt
          · rw [hi, if_neg ?_, hget]
            intro hand
            apply hva
            simp only [Bool.and_eq_true, beq_iff_eq]
            exact ⟨hand.1, hand.2⟩
          · exact hrest j (by omega) h2
        next => exact Option.noConfusion h

/-- C2 counterexample: the claim reads the copy loop and the toplevel flag
off the call's actual-argument count `nargs`, but the code uses `lam->nargs`
(the formal count).  Two concrete runs separate them: (1) one formal, two
actuals — the code leaves slot 2 uninitialized and throws the
undefined-variable error while the claim's reading returns `args[1]`;
(2) a vararg method called with zero actuals — the code runs the body with
`toplevel = false` (the `line` statement does not touch the line counter)
while the claim's reading (`nargs == 0`) would set the counter to 7. -/
theorem claim_C2_counterexample :
    (∃ gA, jl_interpret_call c0 5 lamC2a [.long 10, .long 20] none g0 =
        .thrown (.exc_undefvar (.name "y")) gA) ∧
    (∃ gB, jl_interpret_call_claimC2 c0 5 lamC2a [.long 10, .long 20] none g0 =
        .ok (.long 20) gB) ∧
    (∃ gC, jl_interpret_call c0 5 lamC2b [] none g0 = .ok (.long 1) gC ∧ gC.lineno = 0) ∧
    (∃ gD, jl_interpret_call_claimC2 c0 5 lamC2b [] none g0 = .ok (.long 1) gD ∧
      gD.lineno = 7) :=
  ⟨⟨_, rfl⟩, ⟨_, rfl⟩, ⟨_, rfl, rfl⟩, ⟨_, rfl, rfl⟩⟩

/-- C2 amended: `interpret_call(lam, args, nargs, sparam_vals?)` allocates a
rooted locals vector of length `nslots + nssavalues`; the initialisation loop
runs over the `lam.nargs` formal slots — slot `i` receives `args[i]`, except
that when `lam.isva` the final formal slot receives a tuple of the trailing
actuals — the remaining entries start absent, and the body executes with
`toplevel = (lam.nargs == 0)` (the formal count, not the actual count). -/
theorem claim_C2_interpret_call (c : Collab) (fuel : Nat) (lam : LambdaInfo)
    (args : List Value) (sp : Option (List Value)) (g : GState) (nssa : Int)
    (loc0 : List Value)
    (hnssa : linfo_nssavalues lam = some nssa) (hpos : ¬nssa < 0)
    (hinit : initArgSlots lam args lam.nargs 0
      (List.replicate (lam.slotflags.length + nssa.toNat) Value.vnull) = some loc0) :
    jl_interpret_call c fuel lam args sp g =
      eval_body c fuel lam.code (some ⟨some lam, some g.localsHeap.length, sp⟩) 0
        (lam.nargs == 0) { g with localsHeap := g.localsHeap ++ [loc0] } ∧
    loc0.length = lam.slotflags.length + nssa.toNat ∧
    (∀ j, j < lam.nargs →
      loc0.get? j = (if lam.isva ∧ j + 1 = lam.nargs then some (fTuple (args.drop j))
                     else args.get? j)) ∧
    (∀ j, lam.nargs ≤ j → j < lam.slotflags.length + nssa.toNat →
      loc0.get? j = some Value.vnull) := by
  obtain ⟨hlen, hout, hin⟩ := initArgSlots_get lam args lam.nargs 0 _ _ hinit
  refine ⟨?_, by simpa using hlen, ?_, ?_⟩
  · unfold jl_interpret_call
    rw [hnssa]
    dsimp only
    rw [if_neg hpos, hinit]
  · intro j hj
    exact hin j (by omega) (by omega)
  · intro j h1 h2
    rw [hout j (by omega)]
    simp [List.get?_eq_getElem?, List.getElem?_replicate, h2]

/-- Witness for the amended C2 theorem: the one-formal lambda with two
actuals initializes exactly slot 1 and runs the body with `toplevel =
false`. -/
theorem claim_C2_witness :
    jl_interpret_call c0 5 lamC2a [.long 10, .long 20] none g0 =
      eval_body c0 5 lamC2a.code (some ⟨some lamC2a, some g0.localsHeap.length, none⟩) 0
        (lamC2a.nargs == 0)
        { g0 with localsHeap := g0.localsHeap ++ [[.long 10, Value.vnull]] } :=
  (claim_C2_interpret_call c0 5 lamC2a [.long 10, .long 20] none g0 0
    [.long 10, Value.vnull] rfl (by norm_num) rfl).1

/-- A successful run of the argument loop is exactly a left-to-right
sequential evaluation. -/
theorem evalArgs_ok_evalSeq (c : Collab) (fuel : Nat) (s : Option Frame) :
    ∀ (args : List Value) (g : GState) (vs : List Value) (g' : GState),
      evalArgs (fun v => eval c fuel v s) args g = .ok vs g' →
      EvalSeq c fuel s args g vs g' := by
  intro args
  induction args with
  | nil =>
    intro g vs g' h
    simp only [evalArgs, Res.ok.injEq] at h
    rcases h with ⟨h1, h2⟩
    subst h1; subst h2
    exact .nil g
  | cons a rest ih =>
    intro g vs g' h
    unfold evalArgs at h
    cases he : eval c fuel a s g with
    | ok v g1 =>
      rw [he] at h
      dsimp only [resBind] at h
      cases hr : evalArgs (fun v => eval c fuel v s) rest g1 with
      | ok vs1 g2 =>
        rw [hr] at h
        dsimp only [resBind] at h
        injection h with h1 h2
        subst h1; subst h2
        exact .cons he (ih g1 vs1 g2 hr)
      | thrown e gg => rw [hr] at h; exact Res.noConfusion h
      | crash => rw [hr] at h; exact Res.noConfusion h
      | oom => rw [hr] at h; exact Res.noConfusion h
    | thrown e gg => rw [he] at h; exact Res.noConfusion h
    | crash => rw [he] at h; exact Res.noConfusion h
    | oom => rw [he] at h; exact Res.noConfusion h

/-- A throwing run of the argument loop splits the list: a prefix fully
evaluated left-to-right, the throwing argument, and a tail never started. -/
theorem evalArgs_thrown_decomp (c : Collab) (fuel : Nat) (s : Option Frame) :
    ∀ (args : List Value) (g : GState) (exc : Value) (gout : GState),
      evalArgs (fun v => eval c fuel v s) args g = .thrown exc gout →
      ∃ pre b post vs gmid, args = pre ++ b :: post ∧
        EvalSeq c fuel s pre g vs gmid ∧ eval c fuel b s gmid = .thrown exc gout := by
  intro args
  induction args with
  | nil =>
    intro g exc gout h
    simp only [evalArgs] at h
    exact Res.noConfusion h
  | cons a rest ih =>
    intro g exc gout h
    unfold evalArgs at h
    cases he : eval c fuel a s g with
    | ok v g1 =>
      rw [he] at h
      dsimp only [resBind] at h
      cases hr : evalArgs (fun v => eval c fuel v s) rest g1 with
      | ok vs1 g2 =>
        rw [hr] at h
        dsimp only [resBind] at h
        exact Res.noConfusion h
      | thrown e gg =>
        rw [hr] at h
        dsimp only [resBind] at h
        injection h with h1 h2
        subst h1; subst h2
        obtain ⟨pre, b, post, vs, gmid, heq, hseq, hthr⟩ := ih g1 _ _ hr
        exact ⟨a :: pre, b, post, v :: vs, gmid, by rw [heq]; rfl, .cons he hseq, hthr⟩
      | crash => rw [hr] at h; exact Res.noConfusion h
      | oom => rw [hr] at h; exact Res.noConfusion h
    | thrown e gg =>
      rw [he] at h
      dsimp only [resBind] at h
      injection h with h1 h2
      subst h1; subst h2
      exact ⟨[], a, rest, [], g, rfl, .nil g, he⟩
    | crash => rw [he] at h; exact Res.noConfusion h
    | oom => rw [he] at h; exact Res.noConfusion h

/-- C9: a `call` expression evaluates its arguments strictly left-to-right
into an argument vector — argument `i` is fully evaluated, with its state
effects, before argument `i+1` starts — and only then invokes generic
dispatch on the vector, the dispatch call being the next recorded observable
event after the last argument's effects; if an argument throws, a prefix was
evaluated in order, the throwing argument next, and the rest never started. -/
theorem claim_C9_call_evaluation_order (c : Collab) (fuel : Nat)
    (s : Option Frame) (g : GState) (args : List Value) :
    (eval c (fuel + 1) (.expr .call args) s g =
      do_call c (fun v => eval c fuel v s) args g) ∧
    (∀ res gout, do_call c (fun v => eval c fuel v s) args g = .ok res gout →
      ∃ vs gmid, EvalSeq c fuel s args g vs gmid ∧
        c.apply_generic vs (addEvent (.apply_generic vs) gmid) = .ok res gout ∧
        (addEvent (.apply_generic vs) gmid).trace = gmid.trace ++ [.apply_generic vs]) ∧
    (∀ exc gout, do_call c (fun v => eval c fuel v s) args g = .thrown exc gout →
      (∃ vs gmid, EvalSeq c fuel s args g vs gmid ∧
        c.apply_generic vs (addEvent (.apply_generic vs) gmid) = .thrown exc gout) ∨
      ∃ pre b post vs gmid, args = pre ++ b :: post ∧
        EvalSeq c fuel s pre g vs gmid ∧
        eval c fuel b s gmid = .thrown exc gout) := by
  refine ⟨rfl, ?_, ?_⟩
  · intro res gout h
    unfold do_call at h
    cases hE : evalArgs (fun v => eval c fuel v s) args g with
    | ok vs gmid =>
      rw [hE] at h
      dsimp only [resBind] at h
      exact ⟨vs, gmid, evalArgs_ok_evalSeq c fuel s args g vs gmid hE, h, rfl⟩
    | thrown e gg => rw [hE] at h; exact Res.noConfusion h
    | crash => rw [hE] at h; exact Res.noConfusion h
    | oom => rw [hE] at h; exact Res.noConfusion h
  · intro exc gout h
    unfold do_call at h
    cases hE : evalArgs (fun v => eval c fuel v s) args g with
    | ok vs gmid =>
      rw [hE] at h
      dsimp only [resBind] at h
      exact Or.inl ⟨vs, gmid, evalArgs_ok_evalSeq c fuel s args g vs gmid hE, h⟩
    | thrown e gg =>
      rw [hE] at h
      dsimp only [resBind] at h
      injection h with h1 h2
      subst h1; subst h2
      exact Or.inr (evalArgs_thrown_decomp c fuel s args g _ _ hE)
    | crash => rw [hE] at h; exact Res.noConfusion h
    | oom => rw [hE] at h; exact Res.noConfusion h

/-- Witness for C9 at a concrete input: a one-argument call under the inert
collaborator; the sequential decomposition and the dispatch event follow
from the theorem. -/
theorem claim_C9_witness :
    ∃ vs gmid, EvalSeq c0 1 none [.quotenode (.other 20)] g0 vs gmid ∧
      c0.apply_generic vs (addEvent (.apply_generic vs) gmid) =
        .ok Value.nothing (addEvent (.apply_generic [.other 20]) g0) ∧
      (addEvent (.apply_generic vs) gmid).trace = gmid.trace ++ [.apply_generic vs] :=
  (claim_C9_call_evaluation_order c0 1 none g0 [.quotenode (.other 20)]).2.1
    Value.nothing (addEvent (.apply_generic [.other 20]) g0) rfl

/-- Reading back the cell just written through the binding pointer. -/
theorem bindingValue_setBindingValue (m : Mod) (s : Sym) (v : Value) (g : GState) :
    bindingValue (setBindingValue m s v g) m s = v := by
  simp [bindingValue, lookupBinding, setBindingValue, overBinding]

@[simp] theorem setBindingValue_exc (m : Mod) (s : Sym) (v : Value) (g : GState) :
    (setBindingValue m s v g).exc_in_transit = g.exc_in_transit := rfl

@[simp] theorem setBindingValue_trace (m : Mod) (s : Sym) (v : Value) (g : GState) :
    (setBindingValue m s v g).trace = g.trace := rfl

/-- A rollback scope that throws: the catch block resets the in-progress
datatype, restores the binding, and rethrows the in-transit exception. -/
theorem typedefTry_thrown (c : Collab) (dt : Nat) (m : Mod) (s : Sym) (temp : Value)
    (scope : EvalM Unit) (g : GState) (exc : Value) (g1 : GState)
    (hsc : scope { g with inside_typedef := true } = .thrown exc g1) :
    typedefTry c dt m s temp scope g =
      .thrown (setBindingValue m s temp (callResetInstantiate c dt g1)).exc_in_transit
        (setBindingValue m s temp (callResetInstantiate c dt g1)) := by
  unfold typedefTry
  rw [hsc]

/-- C1: for each of the three type-definition forms, when the rollback scope
(supertype evaluation and installation, composite field-type evaluation and
checking, or `reinstantiate_inner_types`) throws, the catch block calls
`reset_instantiate_inner_types` on the in-progress datatype (the event is in
the final trace), restores the named binding to its pre-attempt snapshot
`temp`, and rethrows the same exception to the caller. -/
theorem claim_C1_typedef_rollback (c : Collab)
    (hrtr : ∀ (r : Nat) (gg : GState),
      ∃ t, (c.reset_instantiate_inner_types r gg).trace = gg.trace ++ t)
    (hrexc : ∀ (r : Nat) (gg : GState),
      (c.reset_instantiate_inner_types r gg).exc_in_transit = gg.exc_in_transit) :
    (∀ (args rest : List Value) (nm : Sym) (paraE superE : Value) (ps : List Value)
      (fuel : Nat) (s : Option Frame) (g g1 : GState) (dt : Nat) (g2 : GState)
      (temp exc : Value) (g5 : GState),
      args = .symv nm :: paraE :: superE :: rest →
      g.inside_typedef = false →
      eval c fuel paraE s g = .ok (.svec ps) g1 →
      newAbstracttype nm (.svec ps) g1 = .ok dt g2 →
      check_can_assign_type (frameModule s g) nm
          (ensureBinding (frameModule s g) nm g2) =
        .ok () (ensureBinding (frameModule s g) nm g2) →
      bindingValue (ensureBinding (frameModule s g) nm g2) (frameModule s g) nm = temp →
      superScope c (fun v => eval c fuel v s) superE dt
          { setBindingValue (frameModule s g) nm (.datatype dt)
              (ensureBinding (frameModule s g) nm g2) with inside_typedef := true } =
        .thrown exc g5 →
      g5.exc_in_transit = exc →
    eval c (fuel + 1) (.expr .abstracttype args) s g =
        .thrown exc
          (setBindingValue (frameModule s g) nm temp (callResetInstantiate c dt g5)) ∧
      bindingValue (setBindingValue (frameModule s g) nm temp (callResetInstantiate c dt g5))
        (frameModule s g) nm = temp ∧
      Event.reset_instantiate dt ∈
        (setBindingValue (frameModule s g) nm temp (callResetInstantiate c dt g5)).trace) ∧
    (∀ (args rest : List Value) (nm : Sym) (paraE nbE superE : Value) (ps : List Value)
      (nb : Int) (fuel : Nat) (s : Option Frame) (g g1 g2 : GState) (dt : Nat)
      (g3 : GState) (temp exc : Value) (g5 : GState),
      args = .symv nm :: paraE :: nbE :: superE :: rest →
      g.inside_typedef = false →
      eval c fuel paraE s g = .ok (.svec ps) g1 →
      eval c fuel nbE s g1 = .ok (.long nb) g2 →
      ¬(nb < 1 ∨ nb ≥ (2 : Int) ^ 23 ∨ nb % 8 ≠ 0) →
      newBitstype nm (.svec ps) nb g2 = .ok dt g3 →
      check_can_assign_type (frameModule s g) nm
          (ensureBinding (frameModule s g) nm g3) =
        .ok () (ensureBinding (frameModule s g) nm g3) →
      bindingValue (ensureBinding (frameModule s g) nm g3) (frameModule s g) nm = temp →
      superScope c (fun v => eval c fuel v s) superE dt
          { setBindingValue (frameModule s g) nm (.datatype dt)
              (ensureBinding (frameModule s g) nm g3) with inside_typedef := true } =
        .thrown exc g5 →
      g5.exc_in_transit = exc →
    eval c (fuel + 1) (.expr .bitstype args) s g =
        .thrown exc
          (setBindingValue (frameModule s g) nm temp (callResetInstantiate c dt g5)) ∧
      bindingValue (setBindingValue (frameModule s g) nm temp (callResetInstantiate c dt g5))
        (frameModule s g) nm = temp ∧
      Event.reset_instantiate dt ∈
        (setBindingValue (frameModule s g) nm temp (callResetInstantiate c dt g5)).trace) ∧
    (∀ (args rest : List Value) (nm : Sym)
      (paraE fnamesE superE ftypesE mutE : Value) (ps : List Value) (fns : Value)
      (ninit : Int) (fuel : Nat) (s : Option Frame) (g g1 g2 : GState) (dt : Nat)
      (g3 : GState) (temp exc : Value) (g5 : GState),
      args = .symv nm :: paraE :: fnamesE :: superE :: ftypesE :: mutE ::
        Value.long ninit :: rest →
      g.inside_typedef = false →
      eval c fuel paraE s g = .ok (.svec ps) g1 →
      eval c fuel fnamesE s g1 = .ok fns g2 →
      newDatatype nm (.svec ps) fns (vbeq mutE .btrue) ninit g2 = .ok dt g3 →
      check_can_assign_type (frameModule s g) nm
          (ensureBinding (frameModule s g) nm g3) =
        .ok () (ensureBinding (frameModule s g) nm g3) →
      bindingValue (ensureBinding (frameModule s g) nm g3) (frameModule s g) nm = temp →
      compositeScope c (fun v => eval c fuel v s) superE ftypesE dt
          { setBindingValue (frameModule s g) nm (.datatype dt)
              (ensureBinding (frameModule s g) nm g3) with inside_typedef := true } =
        .thrown exc g5 →
      g5.exc_in_transit = exc →
    eval c (fuel + 1) (.expr .compositetype args) s g =
        .thrown exc
          (setBindingValue (frameModule s g) nm temp (callResetInstantiate c dt g5)) ∧
      bindingValue (setBindingValue (frameModule s g) nm temp (callResetInstantiate c dt g5))
        (frameModule s g) nm = temp ∧
      Event.reset_instantiate dt ∈
        (setBindingValue (frameModule s g) nm temp (callResetInstantiate c dt g5)).trace) := by
  refine ⟨?_, ?_, ?_⟩
  · intro args rest nm paraE superE ps fuel s g g1 dt g2 temp exc g5
      hargs htd hpara hnew hchk htemp hsc hg5
    subst hargs
    refine ⟨?_, bindingValue_setBindingValue _ _ _ _, ?_⟩
    · simp only [eval, eval_abstracttype]
      rw [htd]
      dsimp only [getArg, List.get?]
      simp only [resBind_ok]
      rw [hpara]
      dsimp only [resBind]
      rw [hnew]
      dsimp only [resBind]
      rw [htemp, hchk]
      dsimp only [resBind]
      rw [typedefTry_thrown c dt (frameModule s g) nm temp _ _ exc g5 hsc]
      dsimp only [resBind]
      have hx : (setBindingValue (frameModule s g) nm temp
          (callResetInstantiate c dt g5)).exc_in_transit = exc := by
        rw [setBindingValue_exc]
        unfold callResetInstantiate
        rw [hrexc]
        exact hg5
      rw [hx]
      simp
    · rw [setBindingValue_trace]
      unfold callResetInstantiate
      obtain ⟨t, ht⟩ := hrtr dt (addEvent (.reset_instantiate dt) g5)
      rw [ht]
      simp [addEvent]
  · intro args rest nm paraE nbE superE ps nb fuel s g g1 g2 dt g3 temp exc g5
      hargs htd hpara hnb hgood hnew hchk htemp hsc hg5
    subst hargs
    refine ⟨?_, bindingValue_setBindingValue _ _ _ _, ?_⟩
    · simp only [eval, eval_bitstype, eval_bitstype_rest]
      rw [htd]
      dsimp only [getArg, List.get?]
      simp only [resBind_ok]
      rw [hpara]
      dsimp only [resBind]
      rw [hnb]
      dsimp only [resBind]
      rw [if_neg hgood]
      rw [hnew]
      dsimp only [resBind]
      unfold eval_bitstype_rest
      dsimp only [getArg, List.get?]
      simp only [resBind_ok]
      rw [htemp, hchk]
      dsimp only [resBind]
      rw [typedefTry_thrown c dt (frameModule s g) nm temp _ _ exc g5 hsc]
      dsimp only [resBind]
      have hx : (setBindingValue (frameModule s g) nm temp
          (callResetInstantiate c dt g5)).exc_in_transit = exc := by
        rw [setBindingValue_exc]
        unfold callResetInstantiate
        rw [hrexc]
        exact hg5
      rw [hx]
      simp
    · rw [setBindingValue_trace]
      unfold callResetInstantiate
      obtain ⟨t, ht⟩ := hrtr dt (addEvent (.reset_instantiate dt) g5)
      rw [ht]
      simp [addEvent]
  · intro args rest nm paraE fnamesE superE ftypesE mutE ps fns ninit fuel s g g1 g2 dt
      g3 temp exc g5 hargs htd hpara hfn hnew hchk htemp hsc hg5
    subst hargs
    refine ⟨?_, bindingValue_setBindingValue _ _ _ _, ?_⟩
    · simp only [eval, eval_compositetype]
      rw [htd]
      dsimp only [getArg, List.get?]
      simp only [resBind_ok]
      rw [hpara]
      dsimp only [resBind]
      rw [hfn]
      dsimp only [resBind, unboxLong]
      rw [hnew]
      dsimp only [resBind]
      rw [htemp, hchk]
      dsimp only [resBind]
      rw [typedefTry_thrown c dt (frameModule s g) nm temp _ _ exc g5 hsc]
      dsimp only [resBind]
      have hx : (setBindingValue (frameModule s g) nm temp
          (callResetInstantiate c dt g5)).exc_in_transit = exc := by
        rw [setBindingValue_exc]
        unfold callResetInstantiate
        rw [hrexc]
        exact hg5
      rw [hx]
      simp
    · rw [setBindingValue_trace]
      unfold callResetInstantiate
      obtain ⟨t, ht⟩ := hrtr dt (addEvent (.reset_instantiate dt) g5)
      rw [ht]
      simp [addEvent]


/-- Witness for C1: a concrete `abstract_type A` whose supertype expression
is an `error` form; the binding stays absent, the reset event is recorded,
and the syntax error is rethrown. -/
theorem claim_C1_witness :
    ∃ exc gfin,
      eval c0 2 (.expr .abstracttype
          [.symv (.name "A"), .quotenode (.svec []), .expr .error [.strv "boom"]]) none g0 =
        .thrown exc gfin ∧
      bindingValue gfin 0 (.name "A") = .vnull ∧
      Event.reset_instantiate 0 ∈ gfin.trace := by
  obtain ⟨h1, h2, h3⟩ :=
    (claim_C1_typedef_rollback c0 (fun r gg => ⟨[], by simp [c0]⟩) (fun r gg => rfl)).1
      _ [] (.name "A") (.quotenode (.svec [])) (.expr .error [.strv "boom"]) [] 1 none g0 g0
      0 _ .vnull _ _ rfl rfl rfl rfl rfl rfl rfl rfl
  exact ⟨_, _, h1, h2, h3⟩

/-- The other rollback-scope outcome: success keeps the scope's final state. -/
theorem typedefTry_ok (c : Collab) (dt : Nat) (m : Mod) (s : Sym) (temp : Value)
    (scope : EvalM Unit) (g : GState) (g1 : GState)
    (hsc : scope { g with inside_typedef := true } = .ok () g1) :
    typedefTry c dt m s temp scope g = .ok () g1 := by
  unfold typedefTry
  rw [hsc]

/-- `checked_assignment` stores the value in the binding. -/
theorem bindingValue_checkedAssignment (m : Mod) (s : Sym) (v : Value) (g : GState) :
    bindingValue (checkedAssignment m s v g) m s = v :=
  bindingValue_setBindingValue m s v _

/-- C6: a successful non-parametric `composite_type` whose binding previously
held a datatype equivalent to the new one under the `equiv_type` heuristic
(same runtime type-of, empty parameters, equal name, structurally equal field
types, equal abstract/mutable flags, size and ninitialized, structurally
equal supertype and field names) restores the binding to the original (old)
type and performs no checked assignment (the trace is untouched); if the
previous value is absent or not equivalent, a checked assignment binds the
new type. -/
theorem claim_C6_idempotent_reload (c : Collab) :
    ∀ (args rest : List Value) (nm : Sym) (paraE fnamesE superE ftypesE mutE : Value)
      (ps : List Value) (fns : Value) (ninit : Int) (fuel : Nat) (s : Option Frame)
      (g g1 g2 : GState) (dt : Nat) (g3 : GState) (temp : Value) (g6 g7 g8 : GState),
      args = .symv nm :: paraE :: fnamesE :: superE :: ftypesE :: mutE ::
        Value.long ninit :: rest →
      g.inside_typedef = false →
      eval c fuel paraE s g = .ok (.svec ps) g1 →
      eval c fuel fnamesE s g1 = .ok fns g2 →
      newDatatype nm (.svec ps) fns (vbeq mutE .btrue) ninit g2 = .ok dt g3 →
      check_can_assign_type (frameModule s g) nm
          (ensureBinding (frameModule s g) nm g3) =
        .ok () (ensureBinding (frameModule s g) nm g3) →
      bindingValue (ensureBinding (frameModule s g) nm g3) (frameModule s g) nm = temp →
      compositeScope c (fun v => eval c fuel v s) superE ftypesE dt
          { setBindingValue (frameModule s g) nm (.datatype dt)
              (ensureBinding (frameModule s g) nm g3) with inside_typedef := true } =
        .ok () g6 →
      callComputeFieldOffsets c dt g6 = g7 →
      (if vbeq (.svec ps) (.svec []) && c.is_datatype_make_singleton dt g7 then
        updateDt dt (fun d => { d with inst := c.newstruct dt }) g7 else g7) = g8 →
      (vbeq temp .vnull = false →
        equiv_type (setBindingValue (frameModule s g) nm temp g8) dt temp = true →
        eval c (fuel + 1) (.expr .compositetype args) s g =
          .ok Value.nothing (setBindingValue (frameModule s g) nm temp g8) ∧
        bindingValue (setBindingValue (frameModule s g) nm temp g8)
          (frameModule s g) nm = temp ∧
        (setBindingValue (frameModule s g) nm temp g8).trace = g8.trace) ∧
      ((vbeq temp .vnull = true ∨
        equiv_type (setBindingValue (frameModule s g) nm temp g8) dt temp = false) →
        eval c (fuel + 1) (.expr .compositetype args) s g =
          .ok Value.nothing
            (checkedAssignment (frameModule s g) nm (.datatype dt)
              (setBindingValue (frameModule s g) nm temp g8)) ∧
        bindingValue
          (checkedAssignment (frameModule s g) nm (.datatype dt)
            (setBindingValue (frameModule s g) nm temp g8)) (frameModule s g) nm =
          .datatype dt ∧
        (checkedAssignment (frameModule s g) nm (.datatype dt)
            (setBindingValue (frameModule s g) nm temp g8)).trace =
          (setBindingValue (frameModule s g) nm temp g8).trace ++
            [.checked_assignment (frameModule s g) nm (.datatype dt)]) := by
  intro args rest nm paraE fnamesE superE ftypesE mutE ps fns ninit fuel s g g1 g2 dt
    g3 temp g6 g7 g8 hargs htd hpara hfn hnew hchk htemp hsc hg7 hg8
  subst hargs
  have hrun : ∀ r : Res Unit,
      typedefFinish (frameModule s g) nm temp dt g8 = r →
      eval c (fuel + 1)
          (.expr .compositetype (.symv nm :: paraE :: fnamesE :: superE :: ftypesE ::
            mutE :: Value.long ninit :: rest)) s g =
        resBind r (fun _ g17 => .ok Value.nothing g17) := by
    intro r hr
    simp only [eval, eval_compositetype]
    rw [htd]
    rw [if_neg (by simp)]
    dsimp only [getArg, List.get?]
    simp only [resBind_ok]
    rw [hpara]
    dsimp only [resBind]
    rw [hfn]
    dsimp only [resBind, unboxLong]
    rw [hnew]
    dsimp only [resBind]
    rw [htemp, hchk]
    dsimp only [resBind]
    rw [typedefTry_ok c dt (frameModule s g) nm temp _ _ g6 hsc]
    dsimp only [resBind]
    rw [hg7, hg8, hr]
  constructor
  · intro habs heqv
    have hfin : typedefFinish (frameModule s g) nm temp dt g8 =
        .ok () (setBindingValue (frameModule s g) nm temp g8) := by
      unfold typedefFinish
      rw [if_neg (by simp [habs, heqv])]
    refine ⟨?_, bindingValue_setBindingValue _ _ _ _, setBindingValue_trace _ _ _ _⟩
    rw [hrun _ hfin]
    rfl
  · intro hcase
    have hfin : typedefFinish (frameModule s g) nm temp dt g8 =
        .ok () (checkedAssignment (frameModule s g) nm (.datatype dt)
          (setBindingValue (frameModule s g) nm temp g8)) := by
      unfold typedefFinish
      rw [if_pos ?_]
      rcases hcase with h | h
      · simp [h]
      · simp [h]
    refine ⟨?_, bindingValue_checkedAssignment _ _ _ _, rfl⟩
    rw [hrun _ hfin]
    rfl

/-- Witness for C6: redefining the concrete `Foo <: S` of `gC6` with an
identical `composite_type` form succeeds and leaves the binding pointing at
the original datatype (heap slot 1), not the freshly built one (slot 2). -/
theorem claim_C6_witness :
    ∃ gfin, eval c0 2 (.expr .compositetype argsC6) none gC6 = .ok Value.nothing gfin ∧
      bindingValue gfin 0 (.name "Foo") = .datatype 1 := by
  obtain ⟨h1, h2, h3⟩ :=
    (claim_C6_idempotent_reload c0 _ [] (.name "Foo") (.quotenode (.svec []))
      (.quotenode (.svec [])) (.symv (.name "S")) (.quotenode (.svec [])) .bfalse
      [] (.svec []) 0 1 none gC6 gC6 _ 2 _ (.datatype 1) _ _ _
      rfl rfl rfl rfl rfl rfl rfl rfl rfl rfl).1 rfl rfl
  exact ⟨_, h1, h2⟩

end JuliaInterp
